import Mathlib

/-!
# RootWindowHostDelegateWayland: focus, capture and event routing

A shallow embedding of `impl/root_window_host_delegate_wayland.cc`.

* A `DesktopRootWindowHostWayland*` is a pointer identity (`HostPtr`); `NULL` is `none`.
* The class `DesktopRootWindowHostWayland` is declared outside the translated file, so the
  members the coordinator reads (`window_`, `window_parent_`, `GetAcceleratedWidget`, the two
  static lookups) are parameters, collected in `Env`.
* Calls that leave the coordinator (window capabilities, event pump, display observer,
  `StopPropagation`) are appended to `State.trace` in program order. Callbacks do not
  re-enter the coordinator.
* `DCHECK(c)` is fatal when `Env.dcheck_is_on` and a no-op otherwise, so every statement
  covers debug and release builds. Dereferencing `NULL` and `front()` of an empty list are
  undefined behaviour and end the run with a `Fault`.
* `base::MessagePumpOzone::Current()` and `OzoneDisplay::GetInstance()` are process
  singletons that outlive the coordinator; `DCHECK(base::MessagePumpOzone::Current())`
  therefore always passes and is not represented.
-/

namespace ozonewayland

/-- The type `gfx::AcceleratedWidget` (an `unsigned` window handle). -/
abbrev AcceleratedWidget := Nat

/-- A non-null `DesktopRootWindowHostWayland*`, by identity. -/
abbrev HostPtr := Nat

/-- A value of type `aura::Window*` as returned by the content-window lookup. -/
abbrev AuraWindow := Nat

/-- The enumerators of `ui::EventType` named by `Dispatch`; every other enumerator is
`ET_OTHER n` and reaches the `default:` label. -/
inductive EventType where
  | ET_UNKNOWN
  | ET_MOUSE_PRESSED
  | ET_MOUSE_DRAGGED
  | ET_MOUSE_RELEASED
  | ET_MOUSE_MOVED
  | ET_MOUSE_ENTERED
  | ET_MOUSE_EXITED
  | ET_KEY_PRESSED
  | ET_KEY_RELEASED
  | ET_MOUSEWHEEL
  | ET_TOUCH_RELEASED
  | ET_TOUCH_PRESSED
  | ET_TOUCH_MOVED
  | ET_TOUCH_CANCELLED
  | ET_SCROLL
  | ET_SCROLL_FLING_START
  | ET_SCROLL_FLING_CANCEL
  | ET_UMA_DATA
  | ET_OTHER (n : Nat)
  deriving DecidableEq

/-- A `base::NativeEvent`: its event type (`ui::EventTypeFromNative`) and an identity that
tells two events of one type apart. -/
structure NativeEvent where
  type : EventType
  serial : Nat
  deriving DecidableEq

/-- Calls issued by the coordinator to its collaborators. `Activate` also records the list
of open windows as the callee would read it at the moment of the call. -/
inductive Call where
  | AddDispatcherForRootWindow
  | RemoveDispatcherForRootWindow
  | SetWindowChangeObserver (observing : Bool)
  | Activate (w : HostPtr) (stacking : List AcceleratedWidget)
  | OnCaptureReleased (w : HostPtr)
  | HandleNativeWidgetActivationChanged (w : HostPtr) (active : Bool)
  | OnHostMouseEvent (w : HostPtr) (ev : NativeEvent)
  | OnHostKeyEvent (w : HostPtr) (ev : NativeEvent)
  | OnHostTouchEvent (w : HostPtr) (ev : NativeEvent)
  | OnHostScrollEvent (w : HostPtr) (ev : NativeEvent)
  | StopPropagation (ev : NativeEvent)
  | NOTIMPLEMENTED
  deriving DecidableEq

/-- Ways in which a call fails to return normally. -/
inductive Fault where
  | nullDereference
  | frontOfEmptyList
  | dcheckFailed
  deriving DecidableEq

/-- Declarations used by the coordinator that live outside the translated file. -/
structure Env where
  /-- Debug build: a failed `DCHECK` is fatal. -/
  dcheck_is_on : Bool
  /-- The member `DesktopRootWindowHostWayland::window_`. -/
  window_ : HostPtr → AcceleratedWidget
  /-- The member `DesktopRootWindowHostWayland::window_parent_`, only ever tested for null. -/
  window_parent_ : HostPtr → Option Nat
  /-- The method `DesktopRootWindowHostWayland::GetAcceleratedWidget()`. -/
  GetAcceleratedWidget : HostPtr → AcceleratedWidget
  /-- The static `DesktopRootWindowHostWayland::GetHostForAcceleratedWidget`. -/
  GetHostForAcceleratedWidget : AcceleratedWidget → Option HostPtr
  /-- The static `DesktopRootWindowHostWayland::GetContentWindowForAcceleratedWidget`. -/
  GetContentWindowForAcceleratedWidget : AcceleratedWidget → AuraWindow

/-- The data members of `RootWindowHostDelegateWayland`, plus the trace of outgoing calls. -/
structure State where
  current_focus_window_ : AcceleratedWidget
  handle_event_ : Bool
  stop_propogation_ : Bool
  current_dispatcher_ : Option HostPtr
  current_capture_ : Option HostPtr
  current_active_window_ : Option HostPtr
  open_windows_ : Option (List AcceleratedWidget)
  aura_windows_ : Option (List AuraWindow)
  trace : List Call
  deriving DecidableEq

/-- The constructor `RootWindowHostDelegateWayland::RootWindowHostDelegateWayland()`. -/
def RootWindowHostDelegateWayland : State :=
  { current_focus_window_ := 0
    handle_event_ := true
    stop_propogation_ := false
    current_dispatcher_ := none
    current_capture_ := none
    current_active_window_ := none
    open_windows_ := none
    aura_windows_ := none
    trace := [Call.AddDispatcherForRootWindow, Call.SetWindowChangeObserver true] }

/-- The list behind `open_windows()`: the accessor allocates an empty list when
`open_windows_` is null. -/
def open_windows (s : State) : List AcceleratedWidget :=
  match s.open_windows_ with
  | some l => l
  | none => []

/-- The effect of `std::list::remove(value)`: every element equal to `value` goes. -/
def listRemove (l : List AcceleratedWidget) (value : AcceleratedWidget) :
    List AcceleratedWidget :=
  l.filter (fun x => x != value)

/-- Append one outgoing call to the trace. -/
def emit (s : State) (c : Call) : State :=
  { s with trace := s.trace ++ [c] }

/-- The method `OnRootWindowCreated(handle)`. -/
def OnRootWindowCreated (s : State) (handle : AcceleratedWidget) : State :=
  { s with
    open_windows_ := some (open_windows s ++ [handle])
    aura_windows_ := none }

/-- The method `SetActiveWindow(dispatcher)`. -/
def SetActiveWindow (env : Env) (s : State) (dispatcher : Option HostPtr) :
    Except Fault State :=
  let s1 := { s with current_active_window_ := dispatcher, current_dispatcher_ := dispatcher }
  match dispatcher with
  | none => .ok s1
  | some w =>
    -- `open_windows()` allocates the list when it is null
    let windows := open_windows s1
    if env.dcheck_is_on && windows.length == 0 then .error Fault.dcheckFailed
    else
      let window_handle := env.window_ w
      match windows with
      | [] => .error Fault.frontOfEmptyList
      | front :: rest =>
        let windows1 :=
          if front != window_handle then
            window_handle :: listRemove (front :: rest) window_handle
          else front :: rest
        let s2 := { s1 with open_windows_ := some windows1 }
        .ok (emit s2 (Call.Activate w windows1))

/-- The method `GetActiveWindow()`. -/
def GetActiveWindow (s : State) : Option HostPtr :=
  s.current_active_window_

/-- The method `SetCapture(dispatcher)`. -/
def SetCapture (s : State) (dispatcher : Option HostPtr) : State :=
  let s1 :=
    match s.current_capture_ with
    | some c => emit s (Call.OnCaptureReleased c)
    | none => s
  let s2 := { s1 with
    current_capture_ := dispatcher
    stop_propogation_ := dispatcher.isSome
    current_dispatcher_ := dispatcher }
  match s2.current_dispatcher_ with
  | some _ => s2
  | none => { s2 with current_dispatcher_ := s2.current_active_window_ }

/-- The method `GetCurrentCapture()`. -/
def GetCurrentCapture (s : State) : Option HostPtr :=
  s.current_capture_

/-- The method `OnRootWindowClosed(handle)`. -/
def OnRootWindowClosed (env : Env) (s : State) (handle : AcceleratedWidget) :
    Except Fault State :=
  let s1 := { s with open_windows_ := some (listRemove (open_windows s) handle) }
  let r2 : Except Fault State :=
    if (open_windows s1).length == 0 then
      match SetActiveWindow env { s1 with open_windows_ := none } none with
      | .error f => .error f
      | .ok s => .ok (emit (emit s Call.RemoveDispatcherForRootWindow)
                        (Call.SetWindowChangeObserver false))
    else .ok s1
  match r2 with
  | .error f => .error f
  | .ok s2 =>
    let s3 := { s2 with aura_windows_ := none }
    match s3.current_active_window_ with
    | none => .ok s3
    | some active =>
      if env.window_ active != handle || s3.open_windows_.isNone then .ok s3
      else if env.dcheck_is_on && (env.window_parent_ active).isSome then
        .error Fault.dcheckFailed
      else
        let s4 := emit s3 (Call.HandleNativeWidgetActivationChanged active false)
        match open_windows s4 with
        | [] => .error Fault.frontOfEmptyList
        | front :: _ =>
          let rootWindow := env.GetHostForAcceleratedWidget front
          match SetActiveWindow env s4 rootWindow with
          | .error f => .error f
          | .ok s5 =>
            match rootWindow with
            | none => .error Fault.nullDereference
            | some r => .ok (emit s5 (Call.HandleNativeWidgetActivationChanged r true))

/-- The method `GetAllOpenWindows()`: the returned vector together with the new state. -/
def GetAllOpenWindows (env : Env) (s : State) : Except Fault (State × List AuraWindow) :=
  match s.aura_windows_ with
  | some v => .ok (s, v)
  | none =>
    let windows := open_windows s
    if env.dcheck_is_on && windows.length == 0 then .error Fault.dcheckFailed
    else
      let v := windows.map env.GetContentWindowForAcceleratedWidget
      .ok ({ s with open_windows_ := some windows, aura_windows_ := some v }, v)

/-- The private method `DispatchMouseEvent(event)`. -/
def DispatchMouseEvent (s : State) (event : NativeEvent) : Except Fault State :=
  let r1 : Except Fault State :=
    if s.handle_event_ then
      match s.current_dispatcher_ with
      | none => .error Fault.nullDereference
      | some d => .ok (emit s (Call.OnHostMouseEvent d event))
    else if event.type = EventType.ET_MOUSE_PRESSED then .ok (SetCapture s none)
    else .ok s
  match r1 with
  | .error f => .error f
  | .ok s1 => if s1.stop_propogation_ then .ok (emit s1 (Call.StopPropagation event)) else .ok s1

/-- Forward to a capability of `current_dispatcher_->delegate_`. -/
def toDispatcher (s : State) (c : HostPtr → Call) : Except Fault State :=
  match s.current_dispatcher_ with
  | none => .error Fault.nullDereference
  | some d => .ok (emit s (c d))

/-- The method `Dispatch(ne)`: the new state and the returned flag. -/
def Dispatch (env : Env) (s : State) (ne : NativeEvent) : Except Fault (State × Bool) :=
  if env.dcheck_is_on && s.current_dispatcher_.isNone then .error Fault.dcheckFailed
  else
    let r : Except Fault State :=
      match ne.type with
      | .ET_TOUCH_MOVED | .ET_TOUCH_PRESSED | .ET_TOUCH_CANCELLED | .ET_TOUCH_RELEASED =>
        toDispatcher s (fun d => Call.OnHostTouchEvent d ne)
      | .ET_KEY_PRESSED => toDispatcher s (fun d => Call.OnHostKeyEvent d ne)
      | .ET_KEY_RELEASED => toDispatcher s (fun d => Call.OnHostKeyEvent d ne)
      | .ET_MOUSEWHEEL => DispatchMouseEvent s ne
      | .ET_MOUSE_MOVED | .ET_MOUSE_DRAGGED | .ET_MOUSE_PRESSED | .ET_MOUSE_RELEASED
      | .ET_MOUSE_ENTERED | .ET_MOUSE_EXITED => DispatchMouseEvent s ne
      | .ET_SCROLL_FLING_START | .ET_SCROLL_FLING_CANCEL | .ET_SCROLL =>
        toDispatcher s (fun d => Call.OnHostScrollEvent d ne)
      | .ET_UMA_DATA => .ok s
      | .ET_UNKNOWN => .ok s
      | .ET_OTHER _ => .ok (emit s Call.NOTIMPLEMENTED)
    match r with
    | .error f => .error f
    | .ok s1 => .ok (s1, true)

/-- The method `OnWindowFocused(handle)`. -/
def OnWindowFocused (env : Env) (s : State) (handle : AcceleratedWidget) :
    Except Fault State :=
  let s1 := { s with current_focus_window_ := handle }
  let s2 := { s1 with
    handle_event_ :=
      match s1.current_capture_ with
      | some c => s1.current_focus_window_ == env.GetAcceleratedWidget c
      | none => true }
  match s2.current_active_window_ with
  | none => .error Fault.nullDereference
  | some active =>
    if env.window_ active == handle then .ok s2
    else if s2.current_capture_.isSome && s2.current_capture_ != s2.current_active_window_ then
      .ok s2
    else
      let window : Option HostPtr :=
        if handle != 0 then env.GetHostForAcceleratedWidget handle else none
      match window with
      | none => .ok s2
      | some w =>
        if (env.window_parent_ w).isSome then .ok s2
        else
          let s3 := emit s2 (Call.HandleNativeWidgetActivationChanged active false)
          let s4 := SetCapture s3 none
          match SetActiveWindow env s4 (some w) with
          | .error f => .error f
          | .ok s5 => .ok (emit s5 (Call.HandleNativeWidgetActivationChanged w true))

/-- The method `OnWindowEnter(handle)`. -/
def OnWindowEnter (env : Env) (s : State) (handle : AcceleratedWidget) : Except Fault State :=
  OnWindowFocused env s handle

/-- The method `OnWindowLeave(handle)`. -/
def OnWindowLeave (s : State) (_handle : AcceleratedWidget) : State :=
  s

/-- The public operations of the coordinator, as calls. -/
inductive Op where
  | AddWindow (handle : AcceleratedWidget)
  | RemoveWindow (handle : AcceleratedWidget)
  | SetActiveWindow (w : Option HostPtr)
  | SetCapture (w : Option HostPtr)
  | OnWindowFocused (handle : AcceleratedWidget)
  | OnWindowEnter (handle : AcceleratedWidget)
  | Dispatch (ne : NativeEvent)
  deriving DecidableEq

/-- One call on the coordinator. -/
def step (env : Env) (s : State) : Op → Except Fault State
  | .AddWindow h => .ok (OnRootWindowCreated s h)
  | .RemoveWindow h => OnRootWindowClosed env s h
  | .SetActiveWindow w => SetActiveWindow env s w
  | .SetCapture w => .ok (SetCapture s w)
  | .OnWindowFocused h => OnWindowFocused env s h
  | .OnWindowEnter h => OnWindowEnter env s h
  | .Dispatch ne =>
    match Dispatch env s ne with
    | .error f => .error f
    | .ok (s1, _) => .ok s1

/-- A sequence of calls, stopping at the first fault. -/
def run (env : Env) (s : State) : List Op → Except Fault State
  | [] => .ok s
  | op :: ops =>
    match step env s op with
    | .error f => .error f
    | .ok s1 => run env s1 ops

/-- The calls of `t` that hand an event to a window, as (window, event) pairs. -/
def deliveries : List Call → List (HostPtr × NativeEvent)
  | [] => []
  | .OnHostMouseEvent w ev :: t => (w, ev) :: deliveries t
  | .OnHostKeyEvent w ev :: t => (w, ev) :: deliveries t
  | .OnHostTouchEvent w ev :: t => (w, ev) :: deliveries t
  | .OnHostScrollEvent w ev :: t => (w, ev) :: deliveries t
  | _ :: t => deliveries t

/-- A debug-build environment with three top-level windows `101, 102, 103` (handles
`1, 2, 3`) and a popup `104` (handle `4`, child of a top-level window). -/
def demoEnv : Env :=
  { dcheck_is_on := true
    window_ := fun w => w - 100
    window_parent_ := fun w => if w = 104 then some 101 else none
    GetAcceleratedWidget := fun w => w - 100
    GetHostForAcceleratedWidget := fun h => if 1 ≤ h ∧ h ≤ 4 then some (h + 100) else none
    GetContentWindowForAcceleratedWidget := fun h => h + 1000 }

/-- The list `l` with `h` brought to the front: unchanged when `h` already is the front,
otherwise `h` followed by the elements of `l` other than `h`. -/
def raised (l : List AcceleratedWidget) (h : AcceleratedWidget) : List AcceleratedWidget :=
  if l.head? = some h then l else h :: listRemove l h

/-- The state a successful `SetActiveWindow(w)`, `w` non-null, ends in. -/
def activated (env : Env) (s : State) (w : HostPtr) : State :=
  emit { s with
         current_active_window_ := some w
         current_dispatcher_ := some w
         open_windows_ := some (raised (open_windows s) (env.window_ w)) }
    (Call.Activate w (raised (open_windows s) (env.window_ w)))

/-- The state of `OnWindowFocused(handle)` once the focus handle and `handle_event_` are
recorded (where every early return leaves it). -/
def focusNoted (env : Env) (s : State) (handle : AcceleratedWidget) : State :=
  { s with
    current_focus_window_ := handle
    handle_event_ :=
      match s.current_capture_ with
      | some c => handle == env.GetAcceleratedWidget c
      | none => true }

/-- The conditions under which `OnWindowFocused(handle)`, with `a` active, passes all its
early returns and hands activation to the resolved window `w`. -/
def focusSwitches (env : Env) (s : State) (a : HostPtr) (handle : AcceleratedWidget)
    (w : HostPtr) : Prop :=
  env.window_ a ≠ handle ∧
  (s.current_capture_ = none ∨ s.current_capture_ = some a) ∧
  handle ≠ 0 ∧ env.GetHostForAcceleratedWidget handle = some w ∧ env.window_parent_ w = none

/-- The state of `OnRootWindowClosed(handle)` once the handle is removed and the cache is
dropped, while windows remain. -/
def closedKeep (s : State) (handle : AcceleratedWidget) : State :=
  { s with open_windows_ := some (listRemove (open_windows s) handle), aura_windows_ := none }

/-- The state `OnRootWindowClosed` ends in when the last window goes. -/
def closedLast (s : State) : State :=
  { s with
    open_windows_ := none
    aura_windows_ := none
    current_active_window_ := none
    current_dispatcher_ := none
    trace := s.trace ++ [Call.RemoveDispatcherForRootWindow, Call.SetWindowChangeObserver false] }

/-- The handle of the active window, when there is one, is the front of the open list. -/
def FrontInv (env : Env) (s : State) : Prop :=
  ∀ a, s.current_active_window_ = some a → (open_windows s).head? = some (env.window_ a)

/-! ## Registration, sample events and sample states -/

/-- The calls of a trace that register or deregister the coordinator with the event pump
or with the focus-notification channel. -/
def registryCalls (t : List Call) : List Call :=
  t.filter (fun c =>
    match c with
    | .AddDispatcherForRootWindow => true
    | .RemoveDispatcherForRootWindow => true
    | .SetWindowChangeObserver _ => true
    | _ => false)

/-- Whether the calls of a trace leave the coordinator among the event pump's dispatchers. -/
def pumpRegistered (t : List Call) : Bool :=
  t.foldl (fun r c =>
    match c with
    | .AddDispatcherForRootWindow => true
    | .RemoveDispatcherForRootWindow => false
    | _ => r) false

/-- Whether the calls of a trace leave the coordinator installed as the window-change
observer. -/
def observerRegistered (t : List Call) : Bool :=
  t.foldl (fun r c =>
    match c with
    | .SetWindowChangeObserver b => b
    | _ => r) false

/-- The calls that only touch the window registry. -/
def isRegistryOp : Op → Bool
  | .AddWindow _ => true
  | .RemoveWindow _ => true
  | _ => false

/-- A window opens, closes, and another one opens. -/
def c3Ops : List Op := [Op.AddWindow 1, Op.RemoveWindow 1, Op.AddWindow 2]

/-- The state `c3Ops` leads to. -/
def c3State : State :=
  { current_focus_window_ := 0
    handle_event_ := true
    stop_propogation_ := false
    current_dispatcher_ := none
    current_capture_ := none
    current_active_window_ := none
    open_windows_ := some [2]
    aura_windows_ := none
    trace := [Call.AddDispatcherForRootWindow, Call.SetWindowChangeObserver true,
              Call.RemoveDispatcherForRootWindow, Call.SetWindowChangeObserver false] }

/-- Two windows open and the first one closes. -/
def c3LiveOps : List Op := [Op.AddWindow 1, Op.AddWindow 2, Op.RemoveWindow 1]

/-- The state `c3LiveOps` leads to. -/
def c3Live : State :=
  { RootWindowHostDelegateWayland with open_windows_ := some [2] }

/-- The registration status after a run is settled by whether a deregistration was issued. -/
def RegInv (s : State) : Prop :=
  (pumpRegistered s.trace = true ↔ Call.RemoveDispatcherForRootWindow ∉ s.trace) ∧
  (observerRegistered s.trace = true ↔ Call.SetWindowChangeObserver false ∉ s.trace)

/-- Window `1` and popup `4` open, the popup `104` takes capture, then `101` is activated. -/
def c1Ops : List Op :=
  [Op.AddWindow 1, Op.AddWindow 4, Op.SetCapture (some 104), Op.SetActiveWindow (some 101)]

/-- The state `c1Ops` leads to. -/
def c1State : State :=
  { current_focus_window_ := 0
    handle_event_ := true
    stop_propogation_ := true
    current_dispatcher_ := some 101
    current_capture_ := some 104
    current_active_window_ := some 101
    open_windows_ := some [1, 4]
    aura_windows_ := none
    trace := [Call.AddDispatcherForRootWindow, Call.SetWindowChangeObserver true,
              Call.Activate 101 [1, 4]] }

/-- A mouse press. -/
def pressEvent : NativeEvent := { type := EventType.ET_MOUSE_PRESSED, serial := 1 }

/-- A mouse move. -/
def moveEvent : NativeEvent := { type := EventType.ET_MOUSE_MOVED, serial := 2 }

/-- Window `1` and popup `4` open, `101` active, popup `104` takes capture, then the display
server reports focus on window `1`. -/
def c4Ops : List Op :=
  [Op.AddWindow 1, Op.AddWindow 4, Op.SetActiveWindow (some 101), Op.SetCapture (some 104),
   Op.OnWindowFocused 1]

/-- The state `c4Ops` leads to. -/
def c4State : State :=
  { current_focus_window_ := 1
    handle_event_ := false
    stop_propogation_ := true
    current_dispatcher_ := some 104
    current_capture_ := some 104
    current_active_window_ := some 101
    open_windows_ := some [1, 4]
    aura_windows_ := none
    trace := [Call.AddDispatcherForRootWindow, Call.SetWindowChangeObserver true,
              Call.Activate 101 [1, 4]] }

/-- The state `c4State` after `Dispatch(pressEvent)`. -/
def c4Pressed : State :=
  { c4State with
    stop_propogation_ := false
    current_dispatcher_ := some 101
    current_capture_ := none
    trace := c4State.trace ++ [Call.OnCaptureReleased 104] }

/-- Scenario A: windows `1, 2, 3` opened in this order, none active. -/
def scenarioA : State :=
  { RootWindowHostDelegateWayland with open_windows_ := some [1, 2, 3] }

/-- Scenario B: windows `1, 2` open, `101` active, no capture. -/
def scenarioB : State :=
  { RootWindowHostDelegateWayland with
    open_windows_ := some [1, 2]
    current_active_window_ := some 101
    current_dispatcher_ := some 101
    trace := RootWindowHostDelegateWayland.trace ++ [Call.Activate 101 [1, 2]] }

/-- Scenario E: a single open window `1`, registered by `OnRootWindowCreated`. -/
def scenarioE : State :=
  OnRootWindowCreated RootWindowHostDelegateWayland 1

/-- Two windows `1, 2` open on a fresh coordinator. -/
def c12Opened : State :=
  OnRootWindowCreated (OnRootWindowCreated RootWindowHostDelegateWayland 1) 2

/-- The state `c12Opened` after `GetAllOpenWindows()` built the cache. -/
def c12Cached : State :=
  { c12Opened with aura_windows_ := some [1001, 1002] }

/-- The state `c12Cached` after `SetActiveWindow(102)`. -/
def c12Raised : State :=
  { c12Cached with
    current_active_window_ := some 102
    current_dispatcher_ := some 102
    open_windows_ := some [2, 1]
    trace := c12Cached.trace ++ [Call.Activate 102 [2, 1]] }

/-- The environment `demoEnv` in a release build: `DCHECK` compiles to nothing. -/
def releaseEnv : Env :=
  { demoEnv with dcheck_is_on := false }

/-- Window `1`, popup `4` and window `2` open, `101` is activated, and window `1` closes:
the coordinator promotes the new front of the list, the popup. -/
def c13Ops : List Op :=
  [Op.AddWindow 1, Op.AddWindow 4, Op.AddWindow 2, Op.SetActiveWindow (some 101),
   Op.RemoveWindow 1]

/-- The state `c13Ops` leads to: the popup `104`, which has a parent, is active. -/
def c13State : State :=
  { RootWindowHostDelegateWayland with
    current_dispatcher_ := some 104
    current_active_window_ := some 104
    open_windows_ := some [4, 2]
    trace := RootWindowHostDelegateWayland.trace ++
      [Call.Activate 101 [1, 4, 2],
       Call.HandleNativeWidgetActivationChanged 101 false,
       Call.Activate 104 [4, 2],
       Call.HandleNativeWidgetActivationChanged 104 true] }

/-- Window `1` and a window with handle `9`, which the lookup does not resolve, open;
`101` is activated. -/
def c14Ops : List Op :=
  [Op.AddWindow 1, Op.AddWindow 9, Op.SetActiveWindow (some 101)]

/-- The state `c14Ops` leads to. -/
def c14State : State :=
  { RootWindowHostDelegateWayland with
    current_dispatcher_ := some 101
    current_active_window_ := some 101
    open_windows_ := some [1, 9]
    trace := RootWindowHostDelegateWayland.trace ++ [Call.Activate 101 [1, 9]] }

/-- Whether every `AddWindow` of a run is given a handle that is not in the open-window
list at that moment. -/
def addsFresh (env : Env) (s : State) : List Op → Bool
  | [] => true
  | op :: ops =>
    (match op with
      | .AddWindow h => !(open_windows s).contains h
      | _ => true) &&
    (match step env s op with
      | .ok s1 => addsFresh env s1 ops
      | .error _ => true)

/-- The event types routed through the pointer-event gate: wheel, and mouse
move, drag, press, release, enter, exit. -/
def isPointerEvent : EventType → Bool
  | .ET_MOUSEWHEEL | .ET_MOUSE_MOVED | .ET_MOUSE_DRAGGED | .ET_MOUSE_PRESSED
  | .ET_MOUSE_RELEASED | .ET_MOUSE_ENTERED | .ET_MOUSE_EXITED => true
  | _ => false

/-- The classification table of the dispatcher, as the calls it prescribes for the event
`ne` on the dispatch target `t`: touch, key and scroll events go to the matching capability
once; a pointer event goes to the mouse-event capability once and is then marked consumed
when the propagation-stop flag is set; telemetry and unknown events cause nothing; any other
kind is logged as unimplemented. -/
def dispatchTable (s : State) (t : HostPtr) (ne : NativeEvent) : List Call :=
  match ne.type with
  | .ET_TOUCH_MOVED | .ET_TOUCH_PRESSED | .ET_TOUCH_CANCELLED | .ET_TOUCH_RELEASED =>
    [Call.OnHostTouchEvent t ne]
  | .ET_KEY_PRESSED | .ET_KEY_RELEASED => [Call.OnHostKeyEvent t ne]
  | .ET_SCROLL | .ET_SCROLL_FLING_START | .ET_SCROLL_FLING_CANCEL =>
    [Call.OnHostScrollEvent t ne]
  | .ET_MOUSEWHEEL | .ET_MOUSE_MOVED | .ET_MOUSE_DRAGGED | .ET_MOUSE_PRESSED
  | .ET_MOUSE_RELEASED | .ET_MOUSE_ENTERED | .ET_MOUSE_EXITED =>
    Call.OnHostMouseEvent t ne :: (if s.stop_propogation_ then [Call.StopPropagation ne] else [])
  | .ET_UMA_DATA | .ET_UNKNOWN => []
  | .ET_OTHER _ => [Call.NOTIMPLEMENTED]

/-! ## Properties -/

/-- A property kept by every successful call is kept by every successful run. -/
theorem run_preserves (env : Env) (P : State → Prop)
    (hstep : ∀ s op s1, P s → step env s op = .ok s1 → P s1) :
    ∀ (ops : List Op) (s s1 : State), P s → run env s ops = .ok s1 → P s1 := by
  intro ops
  induction ops with
  | nil =>
    intro s s1 hP h
    simp only [run, Except.ok.injEq] at h
    exact h ▸ hP
  | cons op ops ih =>
    intro s s1 hP h
    simp only [run] at h
    cases hs : step env s op with
    | error f => rw [hs] at h; cases h
    | ok s2 =>
      rw [hs] at h
      exact ih s2 s1 (hstep s op s2 hP hs) h

/-- The call `SetActiveWindow(NULL)` always returns and resets the active window and the target. -/
theorem SetActiveWindow_none (env : Env) (s : State) :
    SetActiveWindow env s none
      = .ok { s with current_active_window_ := none, current_dispatcher_ := none } := rfl

/-- On a non-empty list `SetActiveWindow(w)` returns the state `activated`. -/
theorem SetActiveWindow_some (env : Env) (s : State) (w : HostPtr)
    (h : open_windows s ≠ []) :
    SetActiveWindow env s (some w) = .ok (activated env s w) := by
  unfold SetActiveWindow activated raised
  simp only [open_windows] at h ⊢
  cases hl : s.open_windows_ with
  | none => simp [hl] at h
  | some l =>
    cases l with
    | nil => simp [hl] at h
    | cons a l =>
      by_cases hfa : a = env.window_ w
      · simp [hfa]
      · simp [hfa]

/-- When `SetActiveWindow(w)` returns, the list was non-empty and the result is `activated`. -/
theorem SetActiveWindow_some_inv (env : Env) (s s1 : State) (w : HostPtr)
    (h : SetActiveWindow env s (some w) = .ok s1) :
    open_windows s ≠ [] ∧ s1 = activated env s w := by
  by_cases hne : open_windows s = []
  · exfalso
    unfold SetActiveWindow at h
    simp only [open_windows] at hne h
    cases hl : s.open_windows_ with
    | none => cases hd : env.dcheck_is_on <;> simp [hl, hd] at h
    | some l =>
      rw [hl] at hne
      simp only at hne
      cases hd : env.dcheck_is_on <;> simp [hl, hd, hne] at h
  · refine ⟨hne, ?_⟩
    rw [SetActiveWindow_some env s w hne] at h
    simp only [Except.ok.injEq] at h
    exact h.symm

/-- The front of `raised l h` is `h`. -/
theorem raised_head (l : List AcceleratedWidget) (h : AcceleratedWidget) :
    (raised l h).head? = some h := by
  unfold raised
  split
  · assumption
  · rfl

/-- Closing the last window: the teardown branch, then the return at the null checks. -/
theorem OnRootWindowClosed_last (env : Env) (s : State) (handle : AcceleratedWidget)
    (h : listRemove (open_windows s) handle = []) :
    OnRootWindowClosed env s handle = .ok (closedLast s) := by
  unfold OnRootWindowClosed
  generalize open_windows s = l at h
  simp [open_windows, h, SetActiveWindow, emit, closedLast]

/-- Closing a window other than the active one while windows remain. -/
theorem OnRootWindowClosed_other (env : Env) (s : State) (handle : AcceleratedWidget)
    (h : listRemove (open_windows s) handle ≠ [])
    (ha : ∀ a, s.current_active_window_ = some a → env.window_ a ≠ handle) :
    OnRootWindowClosed env s handle = .ok (closedKeep s handle) := by
  unfold OnRootWindowClosed closedKeep
  generalize open_windows s = l at h
  cases hact : s.current_active_window_ with
  | none => simp [open_windows, h, hact]
  | some a =>
    have := ha a hact
    simp [open_windows, h, hact, this]

/-- Closing the active window while windows remain: the promotion path. -/
theorem OnRootWindowClosed_active (env : Env) (s : State) (handle : AcceleratedWidget)
    (a : HostPtr) (front : AcceleratedWidget) (rest : List AcceleratedWidget)
    (h : listRemove (open_windows s) handle = front :: rest)
    (hact : s.current_active_window_ = some a) (ha : env.window_ a = handle) :
    OnRootWindowClosed env s handle =
      if env.dcheck_is_on && (env.window_parent_ a).isSome then .error Fault.dcheckFailed
      else
        match env.GetHostForAcceleratedWidget front with
        | none => .error Fault.nullDereference
        | some r =>
          match SetActiveWindow env
              (emit (closedKeep s handle) (Call.HandleNativeWidgetActivationChanged a false))
              (some r) with
          | .error f => .error f
          | .ok s5 => .ok (emit s5 (Call.HandleNativeWidgetActivationChanged r true)) := by
  unfold OnRootWindowClosed closedKeep
  generalize open_windows s = l at h
  simp [open_windows, h, hact, ha, emit]
  split
  · rfl
  · cases hr : env.GetHostForAcceleratedWidget front with
    | none => simp [SetActiveWindow]
    | some r => rfl

/-- The three ways in which `OnRootWindowClosed` returns. -/
theorem OnRootWindowClosed_cases (env : Env) (s s1 : State) (handle : AcceleratedWidget)
    (h : OnRootWindowClosed env s handle = .ok s1) :
    (listRemove (open_windows s) handle = [] ∧ s1 = closedLast s) ∨
    (listRemove (open_windows s) handle ≠ [] ∧
      (∀ a, s.current_active_window_ = some a → env.window_ a ≠ handle) ∧
      s1 = closedKeep s handle) ∨
    (∃ a front rest r,
      s.current_active_window_ = some a ∧ env.window_ a = handle ∧
      listRemove (open_windows s) handle = front :: rest ∧
      env.GetHostForAcceleratedWidget front = some r ∧
      s1 = emit (activated env
              (emit (closedKeep s handle) (Call.HandleNativeWidgetActivationChanged a false)) r)
            (Call.HandleNativeWidgetActivationChanged r true)) := by
  cases hl : listRemove (open_windows s) handle with
  | nil =>
    left
    rw [OnRootWindowClosed_last env s handle hl] at h
    simp only [Except.ok.injEq] at h
    exact ⟨rfl, h.symm⟩
  | cons front rest =>
    right
    by_cases ha : ∀ a, s.current_active_window_ = some a → env.window_ a ≠ handle
    · left
      rw [OnRootWindowClosed_other env s handle (by rw [hl]; simp) ha] at h
      simp only [Except.ok.injEq] at h
      exact ⟨by simp, ha, h.symm⟩
    · right
      push_neg at ha
      obtain ⟨a, hact, hwa⟩ := ha
      rw [OnRootWindowClosed_active env s handle a front rest hl hact hwa] at h
      split at h
      · cases h
      · cases hr : env.GetHostForAcceleratedWidget front with
        | none => simp [hr] at h
        | some r =>
          have hne : open_windows (emit (closedKeep s handle)
              (Call.HandleNativeWidgetActivationChanged a false)) ≠ [] := by
            have e : open_windows (emit (closedKeep s handle)
                (Call.HandleNativeWidgetActivationChanged a false))
                = listRemove (open_windows s) handle := rfl
            rw [e, hl]
            simp
          simp only [hr] at h
          rw [SetActiveWindow_some env _ r hne] at h
          simp only [Except.ok.injEq] at h
          exact ⟨a, front, rest, r, hact, hwa, rfl, hr, h.symm⟩

/-- The path of `OnWindowFocused` past all early returns. -/
theorem OnWindowFocused_switch (env : Env) (s : State) (handle : AcceleratedWidget)
    (a w : HostPtr) (hact : s.current_active_window_ = some a)
    (hsw : focusSwitches env s a handle w) :
    OnWindowFocused env s handle =
      match SetActiveWindow env
          (SetCapture (emit (focusNoted env s handle)
            (Call.HandleNativeWidgetActivationChanged a false)) none) (some w) with
      | .error f => .error f
      | .ok s5 => .ok (emit s5 (Call.HandleNativeWidgetActivationChanged w true)) := by
  obtain ⟨h1, h2, h3, h4, h5⟩ := hsw
  unfold OnWindowFocused focusNoted
  rcases h2 with h2 | h2 <;> simp [hact, h1, h2, h3, h4, h5]

/-- Every early return of `OnWindowFocused` ends in `focusNoted`. -/
theorem OnWindowFocused_stay (env : Env) (s : State) (handle : AcceleratedWidget)
    (a : HostPtr) (hact : s.current_active_window_ = some a)
    (hst : ∀ w, ¬ focusSwitches env s a handle w) :
    OnWindowFocused env s handle = .ok (focusNoted env s handle) := by
  unfold OnWindowFocused focusNoted
  simp only [hact]
  by_cases h1 : env.window_ a = handle
  · cases hc : s.current_capture_ <;> simp [h1]
  · by_cases h2 : s.current_capture_ = none ∨ s.current_capture_ = some a
    · by_cases h3 : handle = 0
      · rcases h2 with h2 | h2 <;> simp [h1, h2, h3]
      · cases h4 : env.GetHostForAcceleratedWidget handle with
        | none => rcases h2 with h2 | h2 <;> simp [h1, h2, h3, h4]
        | some w =>
          cases h5 : env.window_parent_ w with
          | none => exact absurd ⟨h1, h2, h3, h4, h5⟩ (hst w)
          | some p => rcases h2 with h2 | h2 <;> simp [h1, h2, h3, h4, h5]
    · cases hc : s.current_capture_ with
      | none => exact absurd (Or.inl hc) h2
      | some c =>
        have : c ≠ a := fun e => h2 (Or.inr (by rw [hc, e]))
        simp [h1, hc, this]

/-- Without an active window `OnWindowFocused` reads through a null pointer. -/
theorem OnWindowFocused_null (env : Env) (s : State) (handle : AcceleratedWidget)
    (hact : s.current_active_window_ = none) :
    OnWindowFocused env s handle = .error Fault.nullDereference := by
  unfold OnWindowFocused
  simp [hact]

/-- The two ways in which `OnWindowFocused` returns. -/
theorem OnWindowFocused_cases (env : Env) (s s1 : State) (handle : AcceleratedWidget)
    (h : OnWindowFocused env s handle = .ok s1) :
    ∃ a, s.current_active_window_ = some a ∧
      (s1 = focusNoted env s handle ∨
        ∃ w s5, focusSwitches env s a handle w ∧
          SetActiveWindow env
            (SetCapture (emit (focusNoted env s handle)
              (Call.HandleNativeWidgetActivationChanged a false)) none) (some w) = .ok s5 ∧
          s1 = emit s5 (Call.HandleNativeWidgetActivationChanged w true)) := by
  cases hact : s.current_active_window_ with
  | none => rw [OnWindowFocused_null env s handle hact] at h; cases h
  | some a =>
    refine ⟨a, rfl, ?_⟩
    by_cases hsw : ∃ w, focusSwitches env s a handle w
    · obtain ⟨w, hw⟩ := hsw
      rw [OnWindowFocused_switch env s handle a w hact hw] at h
      right
      cases h5 : SetActiveWindow env
            (SetCapture (emit (focusNoted env s handle)
              (Call.HandleNativeWidgetActivationChanged a false)) none) (some w) with
      | error f => rw [h5] at h; cases h
      | ok s5 =>
        rw [h5] at h
        simp only [Except.ok.injEq] at h
        exact ⟨w, s5, hw, h5, h.symm⟩
    · left
      rw [OnWindowFocused_stay env s handle a hact (fun w hw => hsw ⟨w, hw⟩)] at h
      simp only [Except.ok.injEq] at h
      exact h.symm

/-- Deliveries of a concatenated trace. -/
theorem deliveries_append (t u : List Call) :
    deliveries (t ++ u) = deliveries t ++ deliveries u := by
  induction t with
  | nil => rfl
  | cons c t ih => cases c <;> simp [deliveries, ih]

/-- What `DispatchMouseEvent` does when it returns: it extends the trace, delivering only to the target and only when enabled, or it clears the capture on a press while disabled. -/
theorem DispatchMouseEvent_cases (s s1 : State) (event : NativeEvent)
    (h : DispatchMouseEvent s event = .ok s1) :
    (∃ t, s1 = { s with trace := s.trace ++ t } ∧
        ∀ p ∈ deliveries t, some p.1 = s.current_dispatcher_ ∧ s.handle_event_ = true) ∨
    (s1 = SetCapture s none ∧ s.handle_event_ = false ∧
        event.type = EventType.ET_MOUSE_PRESSED) := by
  unfold DispatchMouseEvent at h
  cases hh : s.handle_event_ with
  | true =>
    left
    cases hd : s.current_dispatcher_ with
    | none => simp [hh, hd] at h
    | some d =>
      cases hs : s.stop_propogation_ with
      | true =>
        simp [hh, hd, hs, emit] at h
        exact ⟨[Call.OnHostMouseEvent d event, Call.StopPropagation event],
          by rw [← h], by simp [deliveries]⟩
      | false =>
        simp [hh, hd, hs, emit] at h
        exact ⟨[Call.OnHostMouseEvent d event], by rw [← h], by simp [deliveries]⟩
  | false =>
    by_cases hp : event.type = EventType.ET_MOUSE_PRESSED
    · right
      have hstop : (SetCapture s none).stop_propogation_ = false := by
        unfold SetCapture; cases s.current_capture_ <;> simp [emit]
      simp [hh, hp, hstop] at h
      exact ⟨h.symm, rfl, hp⟩
    · left
      cases hs : s.stop_propogation_ with
      | true =>
        simp [hh, hp, hs, emit] at h
        exact ⟨[Call.StopPropagation event], by rw [← h], by simp [deliveries]⟩
      | false =>
        simp [hh, hp, hs] at h
        exact ⟨[], by subst h; cases s; simp_all, by simp [deliveries]⟩

/-- A forwarded event goes to the dispatch target, which must be present. -/
theorem toDispatcher_cases (s s1 : State) (c : HostPtr → Call)
    (h : toDispatcher s c = .ok s1) :
    ∃ d, s.current_dispatcher_ = some d ∧ s1 = { s with trace := s.trace ++ [c d] } := by
  unfold toDispatcher at h
  cases hd : s.current_dispatcher_ with
  | none => simp [hd] at h
  | some d =>
    simp [hd, emit] at h
    exact ⟨d, rfl, h.symm⟩

/-- What `Dispatch` does when it returns: the flag is true, and either only the trace grows, with deliveries to the target only, or a press while disabled clears the capture. -/
theorem Dispatch_cases (env : Env) (s s1 : State) (ne : NativeEvent) (b : Bool)
    (h : Dispatch env s ne = .ok (s1, b)) :
    b = true ∧
    ((∃ t, s1 = { s with trace := s.trace ++ t } ∧
        ∀ p ∈ deliveries t, some p.1 = s.current_dispatcher_) ∨
     (s1 = SetCapture s none ∧ s.handle_event_ = false ∧
        ne.type = EventType.ET_MOUSE_PRESSED)) := by
  unfold Dispatch at h
  split at h
  · cases h
  · have key : ∀ r : Except Fault State,
        (match r with
          | .error f => (Except.error f : Except Fault (State × Bool))
          | .ok s1 => .ok (s1, true)) = .ok (s1, b) → r = .ok s1 ∧ b = true := by
      intro r hr
      cases r with
      | error f => cases hr
      | ok s2 =>
        simp only [Except.ok.injEq, Prod.mk.injEq] at hr
        exact ⟨by rw [hr.1], hr.2.symm⟩
    have hk := key _ h
    refine ⟨hk.2, ?_⟩
    have hr := hk.1
    have mouse : ∀ s1, DispatchMouseEvent s ne = .ok s1 →
        ((∃ t, s1 = { s with trace := s.trace ++ t } ∧
            ∀ p ∈ deliveries t, some p.1 = s.current_dispatcher_) ∨
         (s1 = SetCapture s none ∧ s.handle_event_ = false ∧
            ne.type = EventType.ET_MOUSE_PRESSED)) := by
      intro s1 hm
      rcases DispatchMouseEvent_cases s s1 ne hm with ⟨t, ht, hd⟩ | hc
      · exact Or.inl ⟨t, ht, fun p hp => (hd p hp).1⟩
      · exact Or.inr hc
    have fwd : ∀ (c : HostPtr → Call) s1,
        (∀ d, deliveries [c d] = [(d, ne)]) → toDispatcher s c = .ok s1 →
        ∃ t, s1 = { s with trace := s.trace ++ t } ∧
            ∀ p ∈ deliveries t, some p.1 = s.current_dispatcher_ := by
      intro c s1 hc hf
      obtain ⟨d, hd, hs⟩ := toDispatcher_cases s s1 c hf
      refine ⟨[c d], hs, ?_⟩
      intro p hp
      rw [hc d] at hp
      simp at hp
      rw [hp, hd]
    clear h hk key
    cases ht : ne.type <;> simp only [ht] at hr
    case ET_UNKNOWN => left; exact ⟨[], by simp at hr; rw [← hr]; simp, by simp [deliveries]⟩
    case ET_UMA_DATA => left; exact ⟨[], by simp at hr; rw [← hr]; simp, by simp [deliveries]⟩
    case ET_OTHER n =>
      left
      exact ⟨[Call.NOTIMPLEMENTED], by simp [emit] at hr; rw [← hr], by simp [deliveries]⟩
    case ET_MOUSE_PRESSED =>
      rcases mouse s1 hr with h | h
      · exact Or.inl h
      · exact Or.inr ⟨h.1, h.2.1, rfl⟩
    case ET_MOUSE_DRAGGED => rcases mouse s1 hr with h | h; exact Or.inl h; simp [ht] at h
    case ET_MOUSE_RELEASED => rcases mouse s1 hr with h | h; exact Or.inl h; simp [ht] at h
    case ET_MOUSE_MOVED => rcases mouse s1 hr with h | h; exact Or.inl h; simp [ht] at h
    case ET_MOUSE_ENTERED => rcases mouse s1 hr with h | h; exact Or.inl h; simp [ht] at h
    case ET_MOUSE_EXITED => rcases mouse s1 hr with h | h; exact Or.inl h; simp [ht] at h
    case ET_MOUSEWHEEL => rcases mouse s1 hr with h | h; exact Or.inl h; simp [ht] at h
    all_goals
      left
      exact fwd _ s1 (fun d => by simp [deliveries]) hr


/-- Every field after `SetCapture(w)`. -/
theorem SetCapture_fields (s : State) (w : Option HostPtr) :
    (SetCapture s w).current_capture_ = w ∧
    (SetCapture s w).stop_propogation_ = w.isSome ∧
    (SetCapture s w).current_active_window_ = s.current_active_window_ ∧
    (SetCapture s w).current_dispatcher_
      = (match w with | some c => some c | none => s.current_active_window_) ∧
    (SetCapture s w).open_windows_ = s.open_windows_ ∧
    (SetCapture s w).handle_event_ = s.handle_event_ ∧
    (SetCapture s w).current_focus_window_ = s.current_focus_window_ ∧
    (SetCapture s w).aura_windows_ = s.aura_windows_ ∧
    (SetCapture s w).trace
      = s.trace ++ (match s.current_capture_ with
                    | some c => [Call.OnCaptureReleased c]
                    | none => []) := by
  unfold SetCapture
  cases s.current_capture_ <;> cases w <;> simp [emit]

/-- Removing a value other than the front keeps the front. -/
theorem listRemove_head (l : List AcceleratedWidget) (x h : AcceleratedWidget)
    (hl : l.head? = some x) (hx : x ≠ h) : (listRemove l h).head? = some x := by
  cases l with
  | nil => cases hl
  | cons a l =>
    simp only [List.head?_cons, Option.some.injEq] at hl
    subst hl
    simp [listRemove, List.filter_cons, hx]

/-- Every call keeps `FrontInv`. -/
theorem FrontInv_step (env : Env) (s : State) (op : Op) (s1 : State)
    (hinv : FrontInv env s) (h : step env s op = .ok s1) : FrontInv env s1 := by
  have focus : ∀ hd, OnWindowFocused env s hd = .ok s1 → FrontInv env s1 := by
    intro hd h
    obtain ⟨a, _, hc⟩ := OnWindowFocused_cases env s s1 hd h
    rcases hc with rfl | ⟨w, s5, _, h5, rfl⟩
    · exact hinv
    · obtain ⟨_, rfl⟩ := SetActiveWindow_some_inv env _ s5 w h5
      intro b hb
      have hb : w = b := Option.some.inj hb
      subst hb
      exact raised_head _ _
  cases op with
  | AddWindow hd =>
    simp only [step, Except.ok.injEq] at h
    subst h
    intro a ha
    have h1 := hinv a ha
    show (open_windows s ++ [hd]).head? = some (env.window_ a)
    cases hl : open_windows s with
    | nil => rw [hl] at h1; cases h1
    | cons x l => rw [hl] at h1; simpa using h1
  | RemoveWindow hd =>
    simp only [step] at h
    rcases OnRootWindowClosed_cases env s s1 hd h with ⟨_, rfl⟩ | ⟨_, hne, rfl⟩ |
      ⟨a, front, rest, r, _, _, _, _, rfl⟩
    · intro a ha
      cases ha
    · intro a ha
      exact listRemove_head _ _ _ (hinv a ha) (hne a ha)
    · intro b hb
      have hb : r = b := Option.some.inj hb
      subst hb
      exact raised_head _ _
  | SetActiveWindow w =>
    simp only [step] at h
    cases w with
    | none =>
      rw [SetActiveWindow_none] at h
      simp only [Except.ok.injEq] at h
      subst h
      intro a ha
      cases ha
    | some w =>
      obtain ⟨_, rfl⟩ := SetActiveWindow_some_inv env s s1 w h
      intro b hb
      have hb : w = b := Option.some.inj hb
      subst hb
      exact raised_head _ _
  | SetCapture w =>
    simp only [step, Except.ok.injEq] at h
    subst h
    obtain ⟨_, _, h3, _, h5, _⟩ := SetCapture_fields s w
    unfold FrontInv open_windows
    rw [h3, h5]
    exact hinv
  | OnWindowFocused hd => exact focus hd h
  | OnWindowEnter hd => exact focus hd h
  | Dispatch ne =>
    simp only [step] at h
    cases hd : Dispatch env s ne with
    | error f => rw [hd] at h; cases h
    | ok r =>
      obtain ⟨s2, b⟩ := r
      rw [hd] at h
      simp only [Except.ok.injEq] at h
      subst h
      rcases (Dispatch_cases env s s2 ne b hd).2 with ⟨t, rfl, _⟩ | ⟨rfl, _, _⟩
      · exact hinv
      · obtain ⟨_, _, h3, _, h5, _⟩ := SetCapture_fields s none
        unfold FrontInv open_windows
        rw [h3, h5]
        exact hinv

/-- A fresh coordinator satisfies `FrontInv`. -/
theorem FrontInv_init (env : Env) : FrontInv env RootWindowHostDelegateWayland := by
  intro a ha
  cases ha

/-- The part of an extended trace after the old trace. -/
theorem drop_trace (t u : List Call) : (t ++ u).drop t.length = u := by
  simp

/-- C2: in every state reached from a freshly constructed coordinator by any sequence of
calls, an active window means a non-empty open-window list whose front element is the
handle of the active window. The lookup need not even be sound. -/
theorem active_window_is_front (env : Env) (ops : List Op) (s : State)
    (h : run env RootWindowHostDelegateWayland ops = .ok s)
    (a : HostPtr) (ha : s.current_active_window_ = some a) :
    open_windows s ≠ [] ∧ (open_windows s).head? = some (env.window_ a) := by
  have hinv := run_preserves env (FrontInv env) (FrontInv_step env) ops _ s (FrontInv_init env) h
  have hf := hinv a ha
  refine ⟨?_, hf⟩
  intro hnil
  rw [hnil] at hf
  cases hf

/-- The calls issued by `OnRootWindowClosed`: the two deregistrations exactly when the list ends empty, and otherwise no registry call. -/
theorem OnRootWindowClosed_trace (env : Env) (s s1 : State) (handle : AcceleratedWidget)
    (h : OnRootWindowClosed env s handle = .ok s1) :
    ∃ u, s1.trace = s.trace ++ u ∧
      registryCalls u =
        (if open_windows s1 = [] then
          [Call.RemoveDispatcherForRootWindow, Call.SetWindowChangeObserver false]
         else []) ∧
      (u = [] ∨ u = [Call.RemoveDispatcherForRootWindow, Call.SetWindowChangeObserver false] ∨
        registryCalls u = []) := by
  rcases OnRootWindowClosed_cases env s s1 handle h with ⟨_, rfl⟩ | ⟨hne, _, rfl⟩ |
    ⟨a, front, rest, r, _, _, _, _, rfl⟩
  · exact ⟨_, rfl, by simp [closedLast, open_windows, registryCalls], Or.inr (Or.inl rfl)⟩
  · refine ⟨[], by simp [closedKeep], ?_, Or.inl rfl⟩
    have : open_windows (closedKeep s handle) = listRemove (open_windows s) handle := rfl
    rw [this, if_neg hne]
    rfl
  · refine ⟨[Call.HandleNativeWidgetActivationChanged a false,
        Call.Activate r (raised (listRemove (open_windows s) handle) (env.window_ r)),
        Call.HandleNativeWidgetActivationChanged r true], ?_, ?_, Or.inr (Or.inr rfl)⟩
    · simp [emit, activated, closedKeep, open_windows]
    · have : open_windows (emit (activated env
          (emit (closedKeep s handle) (Call.HandleNativeWidgetActivationChanged a false)) r)
          (Call.HandleNativeWidgetActivationChanged r true))
          = raised (listRemove (open_windows s) handle) (env.window_ r) := rfl
      rw [this]
      have hne : raised (listRemove (open_windows s) handle) (env.window_ r) ≠ [] := by
        intro hnil
        have := raised_head (listRemove (open_windows s) handle) (env.window_ r)
        rw [hnil] at this
        cases this
      rw [if_neg hne]
      rfl

/-- Pump registration after more calls. -/
theorem pumpRegistered_append (t u : List Call) :
    pumpRegistered (t ++ u) =
      u.foldl (fun r c =>
        match c with
        | .AddDispatcherForRootWindow => true
        | .RemoveDispatcherForRootWindow => false
        | _ => r) (pumpRegistered t) := by
  simp [pumpRegistered, List.foldl_append]

/-- Observer registration after more calls. -/
theorem observerRegistered_append (t u : List Call) :
    observerRegistered (t ++ u) =
      u.foldl (fun r c =>
        match c with
        | .SetWindowChangeObserver b => b
        | _ => r) (observerRegistered t) := by
  simp [observerRegistered, List.foldl_append]

/-- Calls other than registry calls leave both registrations as they are. -/
theorem pumpRegistered_quiet (u : List Call) (h : registryCalls u = []) (r : Bool) :
    u.foldl (fun r c =>
        match c with
        | .AddDispatcherForRootWindow => true
        | .RemoveDispatcherForRootWindow => false
        | _ => r) r = r ∧
    u.foldl (fun r c =>
        match c with
        | .SetWindowChangeObserver b => b
        | _ => r) r = r ∧
    Call.RemoveDispatcherForRootWindow ∉ u ∧ Call.SetWindowChangeObserver false ∉ u := by
  induction u with
  | nil => simp
  | cons c u ih =>
    cases c <;> simp [registryCalls, List.filter_cons] at h <;>
      simpa [List.foldl_cons] using ih (by simpa [registryCalls] using h)


/-- The invariant `RegInv` survives the trace extensions a registry call makes. -/
theorem RegInv_append (s s1 : State) (u : List Call) (hinv : RegInv s)
    (ht : s1.trace = s.trace ++ u)
    (hu : u = [] ∨
      u = [Call.RemoveDispatcherForRootWindow, Call.SetWindowChangeObserver false] ∨
      registryCalls u = []) : RegInv s1 := by
  unfold RegInv
  rw [ht, pumpRegistered_append, observerRegistered_append]
  rcases hu with rfl | rfl | hq
  · simpa using hinv
  · simp
  · obtain ⟨q1, _, q3, q4⟩ := pumpRegistered_quiet u hq (pumpRegistered s.trace)
    rw [q1, (pumpRegistered_quiet u hq (observerRegistered s.trace)).2.1]
    simp only [List.mem_append, not_or]
    exact ⟨⟨fun h => ⟨hinv.1.mp h, q3⟩, fun h => hinv.1.mpr h.1⟩,
      ⟨fun h => ⟨hinv.2.mp h, q4⟩, fun h => hinv.2.mpr h.1⟩⟩

/-- A registry call keeps `RegInv`, and an empty list after it means a deregistration was issued. -/
theorem RegInv_step (env : Env) (s : State) (op : Op) (s1 : State)
    (hop : isRegistryOp op = true) (hinv : RegInv s) (h : step env s op = .ok s1) :
    RegInv s1 ∧ (open_windows s1 = [] → Call.RemoveDispatcherForRootWindow ∈ s1.trace) := by
  cases op with
  | AddWindow hd =>
    simp only [step, Except.ok.injEq] at h
    subst h
    refine ⟨hinv, ?_⟩
    intro hnil
    have : open_windows (OnRootWindowCreated s hd) = open_windows s ++ [hd] := rfl
    rw [this] at hnil
    simp at hnil
  | RemoveWindow hd =>
    simp only [step] at h
    obtain ⟨u, hu, hr, hc⟩ := OnRootWindowClosed_trace env s s1 hd h
    refine ⟨RegInv_append s s1 u hinv hu hc, ?_⟩
    intro hnil
    rw [if_pos hnil] at hr
    rw [hu]
    have : Call.RemoveDispatcherForRootWindow ∈ registryCalls u := by rw [hr]; simp
    exact List.mem_append_right _ (List.mem_of_mem_filter this)
  | SetActiveWindow w => cases hop
  | SetCapture w => cases hop
  | OnWindowFocused hd => cases hop
  | OnWindowEnter hd => cases hop
  | Dispatch ne => cases hop

/-- Runs of registry calls keep `RegInv`. -/
theorem RegInv_run (env : Env) :
    ∀ (ops : List Op) (s s1 : State), (∀ op ∈ ops, isRegistryOp op = true) → RegInv s →
      run env s ops = .ok s1 →
      RegInv s1 ∧
      (ops ≠ [] → open_windows s1 = [] → Call.RemoveDispatcherForRootWindow ∈ s1.trace) := by
  intro ops
  induction ops with
  | nil =>
    intro s s1 _ hinv h
    simp only [run, Except.ok.injEq] at h
    subst h
    exact ⟨hinv, fun hne => absurd rfl hne⟩
  | cons op ops ih =>
    intro s s1 hops hinv h
    simp only [run] at h
    cases hs : step env s op with
    | error f => rw [hs] at h; cases h
    | ok s2 =>
      rw [hs] at h
      have h2 := RegInv_step env s op s2 (hops op (List.mem_cons_self _ _)) hinv hs
      have h3 := ih s2 s1 (fun o ho => hops o (List.mem_cons_of_mem _ ho)) h2.1 h
      refine ⟨h3.1, fun _ => ?_⟩
      cases ops with
      | nil =>
        simp only [run, Except.ok.injEq] at h
        subst h
        exact h2.2
      | cons o os => exact h3.2 (by simp)

/-- A fresh coordinator satisfies `RegInv`. -/
theorem RegInv_init : RegInv RootWindowHostDelegateWayland := by
  unfold RegInv
  simp [RootWindowHostDelegateWayland, pumpRegistered, observerRegistered]

/-- C2 at the state reached by `c1Ops`, where window 101 is active. -/
theorem active_window_is_front_witness :
    open_windows c1State ≠ [] ∧ (open_windows c1State).head? = some (demoEnv.window_ 101) :=
  active_window_is_front demoEnv c1Ops c1State rfl 101 rfl

/-- C3, counterexample: the `AddWindow` that takes a fresh coordinator from 0 to 1 open
windows issues no call at all, and after a window opens, closes and another opens, the list
is non-empty while the coordinator is registered with neither the pump nor the channel. -/
theorem registration_not_at_first_window :
    open_windows RootWindowHostDelegateWayland = [] ∧
    open_windows (OnRootWindowCreated RootWindowHostDelegateWayland 1) = [1] ∧
    (OnRootWindowCreated RootWindowHostDelegateWayland 1).trace
      = RootWindowHostDelegateWayland.trace ∧
    run demoEnv RootWindowHostDelegateWayland c3Ops = .ok c3State ∧
    open_windows c3State = [2] ∧
    pumpRegistered c3State.trace = false ∧ observerRegistered c3State.trace = false :=
  ⟨rfl, rfl, rfl, rfl, rfl, rfl, rfl⟩

/-- C3, amended: the constructor issues the registration with the event pump and with the
focus-notification channel; no `AddWindow` issues any call; a `RemoveWindow` that returns
issues the two deregistrations exactly when it leaves the list empty, and no other
registration call. So after every sequence of `AddWindow` and `RemoveWindow` calls on a
fresh coordinator it is registered iff no deregistration was issued so far, and, once a call
was made, a registered coordinator has a non-empty list. -/
theorem registration_at_construction (env : Env) (ops : List Op) (s : State)
    (hops : ∀ op ∈ ops, isRegistryOp op = true)
    (h : run env RootWindowHostDelegateWayland ops = .ok s) :
    RootWindowHostDelegateWayland.trace
      = [Call.AddDispatcherForRootWindow, Call.SetWindowChangeObserver true] ∧
    (∀ (s0 : State) (hd : AcceleratedWidget), (OnRootWindowCreated s0 hd).trace = s0.trace) ∧
    (∀ (s0 s1 : State) (hd : AcceleratedWidget), OnRootWindowClosed env s0 hd = .ok s1 →
      ∃ u, s1.trace = s0.trace ++ u ∧
        registryCalls u =
          (if open_windows s1 = [] then
            [Call.RemoveDispatcherForRootWindow, Call.SetWindowChangeObserver false]
           else [])) ∧
    (pumpRegistered s.trace = true ↔ Call.RemoveDispatcherForRootWindow ∉ s.trace) ∧
    (observerRegistered s.trace = true ↔ Call.SetWindowChangeObserver false ∉ s.trace) ∧
    (ops ≠ [] → pumpRegistered s.trace = true → open_windows s ≠ []) := by
  have hr := RegInv_run env ops _ s hops RegInv_init h
  refine ⟨rfl, fun _ _ => rfl, ?_, hr.1.1, hr.1.2, ?_⟩
  · intro s0 s1 hd h1
    obtain ⟨u, hu, hq, _⟩ := OnRootWindowClosed_trace env s0 s1 hd h1
    exact ⟨u, hu, hq⟩
  · intro hne hp hnil
    exact (hr.1.1.mp hp) (hr.2 hne hnil)

/-- C3, amended, after two windows open and the first one closes: no deregistration was
issued, the coordinator is registered and the list is non-empty. -/
theorem registration_at_construction_witness :
    run demoEnv RootWindowHostDelegateWayland c3LiveOps = .ok c3Live ∧
    (pumpRegistered c3Live.trace = true ↔
      Call.RemoveDispatcherForRootWindow ∉ c3Live.trace) ∧
    (observerRegistered c3Live.trace = true ↔
      Call.SetWindowChangeObserver false ∉ c3Live.trace) ∧
    (c3LiveOps ≠ [] → pumpRegistered c3Live.trace = true → open_windows c3Live ≠ []) :=
  ⟨rfl,
   (registration_at_construction demoEnv c3LiveOps c3Live (by decide) rfl).2.2.2.1,
   (registration_at_construction demoEnv c3LiveOps c3Live (by decide) rfl).2.2.2.2.1,
   (registration_at_construction demoEnv c3LiveOps c3Live (by decide) rfl).2.2.2.2.2⟩

/-- C4, the code at the failing input: window 101 is active, popup 104 holds capture and
`handle_event_` is false. `Dispatch` of a mouse press clears the capture and makes 101 the
dispatch target; `Dispatch` of a mouse move right after returns true, leaves the state as it
was and hands nothing to window 101, because `handle_event_` is still false. -/
theorem mouse_move_dropped_after_press_clears_capture :
    run demoEnv RootWindowHostDelegateWayland c4Ops = .ok c4State ∧
    c4State.current_active_window_ = some 101 ∧
    c4State.current_capture_ = some 104 ∧
    c4State.handle_event_ = false ∧
    Dispatch demoEnv c4State pressEvent = .ok (c4Pressed, true) ∧
    c4Pressed.current_capture_ = none ∧
    c4Pressed.current_dispatcher_ = some 101 ∧
    Dispatch demoEnv c4Pressed moveEvent = .ok (c4Pressed, true) ∧
    Call.OnHostMouseEvent 101 moveEvent ∉ c4Pressed.trace :=
  ⟨rfl, rfl, rfl, rfl, rfl, rfl, rfl, rfl, by decide⟩

/-- In a duplicate-free list with front `h`, `h` followed by the other elements is the list itself. -/
theorem filter_ne_of_head (l : List AcceleratedWidget) (h : AcceleratedWidget)
    (hnd : l.Nodup) (hh : l.head? = some h) : h :: l.filter (fun x => x ≠ h) = l := by
  cases l with
  | nil => cases hh
  | cons a t =>
    simp only [List.head?_cons, Option.some.injEq] at hh
    subst hh
    have hnot : a ∉ t := (List.nodup_cons.mp hnd).1
    have hall : ∀ x ∈ t, ¬ x = a := fun x hx e => hnot (e ▸ hx)
    simpa [List.filter_cons] using hall

/-- On a duplicate-free list `raised` is the handle followed by the other elements. -/
theorem raised_eq (l : List AcceleratedWidget) (h : AcceleratedWidget) (hnd : l.Nodup) :
    raised l h = h :: l.filter (fun x => x ≠ h) := by
  unfold raised
  split
  · next hh => exact (filter_ne_of_head l h hnd hh).symm
  · show h :: l.filter (fun x => x != h) = h :: l.filter (fun x => decide (x ≠ h))
    congr 2
    funext x
    by_cases e : x = h <;> simp [e]

/-- C6: on a duplicate-free open-window list `L` that contains the handle of `w`,
`SetActiveWindow(w)` returns, leaves the list equal to that handle followed by the other
elements of `L` in their order (and equal to `L` when the handle already was the front),
makes `w` the active window, and calls `Activate` on `w` once, at a moment when the list
is already the reordered one. -/
theorem SetActiveWindow_moves_handle_to_front (env : Env) (s : State) (w : HostPtr)
    (L : List AcceleratedWidget) (hL : s.open_windows_ = some L) (hnd : L.Nodup)
    (hmem : env.window_ w ∈ L) :
    ∃ s1, SetActiveWindow env s (some w) = .ok s1 ∧
      open_windows s1 = env.window_ w :: L.filter (fun x => x ≠ env.window_ w) ∧
      (L.head? = some (env.window_ w) → open_windows s1 = L) ∧
      s1.current_active_window_ = some w ∧
      s1.trace = s.trace ++ [Call.Activate w (open_windows s1)] := by
  have hop : open_windows s = L := by simp [open_windows, hL]
  have hne : open_windows s ≠ [] := by
    rw [hop]
    intro hnil
    rw [hnil] at hmem
    cases hmem
  refine ⟨activated env s w, SetActiveWindow_some env s w hne, ?_, ?_, rfl, rfl⟩
  · show raised (open_windows s) (env.window_ w) = _
    rw [hop]
    exact raised_eq L _ hnd
  · intro hh
    show raised (open_windows s) (env.window_ w) = _
    rw [hop]
    unfold raised
    rw [if_pos hh]

/-- C6 on Scenario A: the list `[1, 2, 3]` becomes `[3, 1, 2]`. -/
theorem SetActiveWindow_moves_handle_to_front_witness :
    ∃ s1, SetActiveWindow demoEnv scenarioA (some 103) = .ok s1 ∧
      open_windows s1 = [3, 1, 2] ∧
      s1.current_active_window_ = some 103 ∧
      s1.trace = scenarioA.trace ++ [Call.Activate 103 [3, 1, 2]] := by
  obtain ⟨s1, h1, h2, _, h4, h5⟩ :=
    SetActiveWindow_moves_handle_to_front demoEnv scenarioA 103 [1, 2, 3] rfl (by decide)
      (by decide)
  have e : (3 : AcceleratedWidget) :: [1, 2, 3].filter (fun x => x ≠ 3) = [3, 1, 2] := by
    decide
  rw [show demoEnv.window_ 103 = 3 from rfl] at h2
  rw [h2] at h5
  exact ⟨s1, h1, h2.trans e, h4, by rw [h5, e]⟩

/-- C7: with `w1` active, no capture window, a non-empty open-window list (as in every
reachable state with an active window) and a non-null handle `h`, other than the handle of
`w1`, that the lookup resolves to the parentless window `w2` with handle `h`,
`OnWindowFocused(h)` returns with `w2` active, no capture window, `w2` as dispatch target
and `h` at the front of the list, after issuing exactly: activation-changed(false) on `w1`,
`Activate` on `w2`, activation-changed(true) on `w2`. -/
theorem focus_switches_to_top_level_window (env : Env) (s : State) (w1 w2 : HostPtr)
    (h : AcceleratedWidget)
    (hact : s.current_active_window_ = some w1) (hcap : s.current_capture_ = none)
    (hopen : open_windows s ≠ [])
    (h0 : h ≠ 0) (hne : h ≠ env.window_ w1)
    (hres : env.GetHostForAcceleratedWidget h = some w2) (hw2 : env.window_ w2 = h)
    (htop : env.window_parent_ w2 = none) :
    ∃ s1, OnWindowFocused env s h = .ok s1 ∧
      s1.current_active_window_ = some w2 ∧
      s1.current_capture_ = none ∧
      s1.current_dispatcher_ = some w2 ∧
      (open_windows s1).head? = some h ∧
      s1.trace = s.trace ++
        [Call.HandleNativeWidgetActivationChanged w1 false,
         Call.Activate w2 (open_windows s1),
         Call.HandleNativeWidgetActivationChanged w2 true] := by
  have hsw : focusSwitches env s w1 h w2 :=
    ⟨fun e => hne e.symm, Or.inl hcap, h0, hres, htop⟩
  have hrun := OnWindowFocused_switch env s h w1 w2 hact hsw
  generalize hs3 : emit (focusNoted env s h)
      (Call.HandleNativeWidgetActivationChanged w1 false) = s3 at hrun
  have hc3 : s3.current_capture_ = none := by rw [← hs3]; exact hcap
  have ht3 : s3.trace = s.trace ++ [Call.HandleNativeWidgetActivationChanged w1 false] := by
    rw [← hs3]; rfl
  have ho3 : s3.open_windows_ = s.open_windows_ := by rw [← hs3]; rfl
  obtain ⟨f1, _, _, _, f5, _, _, _, f9⟩ := SetCapture_fields s3 none
  rw [hc3] at f9
  simp only [List.append_nil] at f9
  have hne2 : open_windows (SetCapture s3 none) ≠ [] := by
    have e : open_windows (SetCapture s3 none) = open_windows s := by
      unfold open_windows
      rw [f5, ho3]
    rw [e]
    exact hopen
  rw [SetActiveWindow_some env _ w2 hne2] at hrun
  refine ⟨emit (activated env (SetCapture s3 none) w2)
      (Call.HandleNativeWidgetActivationChanged w2 true), hrun, rfl, f1, rfl, ?_, ?_⟩
  · rw [← hw2]
    exact raised_head (open_windows (SetCapture s3 none)) (env.window_ w2)
  · show ((SetCapture s3 none).trace ++ [Call.Activate w2 _]) ++ [_] = _
    rw [f9, ht3]
    simp
    rfl

/-- C7 on Scenario B: focus moves from window 101 to window 102. -/
theorem focus_switches_to_top_level_window_witness :
    ∃ s1, OnWindowFocused demoEnv scenarioB 2 = .ok s1 ∧
      s1.current_active_window_ = some 102 ∧
      s1.current_capture_ = none ∧
      s1.current_dispatcher_ = some 102 ∧
      (open_windows s1).head? = some 2 ∧
      s1.trace = scenarioB.trace ++
        [Call.HandleNativeWidgetActivationChanged 101 false,
         Call.Activate 102 (open_windows s1),
         Call.HandleNativeWidgetActivationChanged 102 true] :=
  focus_switches_to_top_level_window demoEnv scenarioB 101 102 2 rfl rfl (by decide)
    (by decide) (by decide) rfl rfl rfl

/-- C8: with `w1` active and a capture window other than `w1`, `OnWindowFocused(h)`
returns for every `h`, leaves the open-window list, the active window, the capture window,
the dispatch target, the propagation-stop flag and the window cache as they were and issues
no call; it records `h` as focused handle and recomputes `handle_event_`. -/
theorem focus_blocked_by_foreign_capture (env : Env) (s : State) (w1 popup : HostPtr)
    (h : AcceleratedWidget)
    (hact : s.current_active_window_ = some w1) (hcap : s.current_capture_ = some popup)
    (hdiff : popup ≠ w1) :
    ∃ s1, OnWindowFocused env s h = .ok s1 ∧
      s1.open_windows_ = s.open_windows_ ∧
      s1.current_active_window_ = s.current_active_window_ ∧
      s1.current_capture_ = s.current_capture_ ∧
      s1.current_dispatcher_ = s.current_dispatcher_ ∧
      s1.stop_propogation_ = s.stop_propogation_ ∧
      s1.aura_windows_ = s.aura_windows_ ∧
      s1.trace = s.trace ∧
      s1.current_focus_window_ = h ∧
      s1.handle_event_ = (h == env.GetAcceleratedWidget popup) := by
  have hst : ∀ w, ¬ focusSwitches env s w1 h w := by
    intro w hw
    rcases hw.2.1 with hc | hc
    · rw [hcap] at hc; cases hc
    · rw [hcap] at hc
      exact hdiff (Option.some.inj hc)
  refine ⟨focusNoted env s h, OnWindowFocused_stay env s h w1 hact hst,
    rfl, rfl, rfl, rfl, rfl, rfl, rfl, rfl, ?_⟩
  simp [focusNoted, hcap]

/-- C8 at the state reached by `c4Ops`, for the handle of a third window. -/
theorem focus_blocked_by_foreign_capture_witness :
    ∃ s1, OnWindowFocused demoEnv c4State 3 = .ok s1 ∧
      s1.open_windows_ = c4State.open_windows_ ∧
      s1.current_active_window_ = c4State.current_active_window_ ∧
      s1.current_capture_ = c4State.current_capture_ ∧
      s1.current_dispatcher_ = c4State.current_dispatcher_ ∧
      s1.stop_propogation_ = c4State.stop_propogation_ ∧
      s1.aura_windows_ = c4State.aura_windows_ ∧
      s1.trace = c4State.trace ∧
      s1.current_focus_window_ = 3 ∧
      s1.handle_event_ = ((3 : AcceleratedWidget) == demoEnv.GetAcceleratedWidget 104) :=
  focus_blocked_by_foreign_capture demoEnv c4State 101 104 3 rfl rfl (by decide)

/-- C9: when the open-window list is exactly `[h]`, `RemoveWindow(h)` returns, leaves the
registry empty and no active window, and issues exactly one deregistration from the event
pump and exactly one from the focus-notification channel, and nothing else. -/
theorem closing_sole_window_tears_down (env : Env) (s : State) (h : AcceleratedWidget)
    (hL : s.open_windows_ = some [h]) :
    ∃ s1, OnRootWindowClosed env s h = .ok s1 ∧
      s1.open_windows_ = none ∧ open_windows s1 = [] ∧
      s1.current_active_window_ = none ∧
      s1.trace = s.trace ++
        [Call.RemoveDispatcherForRootWindow, Call.SetWindowChangeObserver false] ∧
      (s1.trace.drop s.trace.length).count Call.RemoveDispatcherForRootWindow = 1 ∧
      (s1.trace.drop s.trace.length).count (Call.SetWindowChangeObserver false) = 1 := by
  have hrm : listRemove (open_windows s) h = [] := by
    simp [open_windows, hL, listRemove]
  refine ⟨closedLast s, OnRootWindowClosed_last env s h hrm, rfl, rfl, rfl, rfl, ?_, ?_⟩
  · rw [show (closedLast s).trace = s.trace ++ [Call.RemoveDispatcherForRootWindow,
        Call.SetWindowChangeObserver false] from rfl, drop_trace]
    decide
  · rw [show (closedLast s).trace = s.trace ++ [Call.RemoveDispatcherForRootWindow,
        Call.SetWindowChangeObserver false] from rfl, drop_trace]
    decide

/-- C9 on Scenario E: the state reached by `AddWindow(1)` on a fresh coordinator. -/
theorem closing_sole_window_tears_down_witness :
    scenarioE.open_windows_ = some [1] ∧
    ∃ s1, OnRootWindowClosed demoEnv scenarioE 1 = .ok s1 ∧
      s1.open_windows_ = none ∧ open_windows s1 = [] ∧
      s1.current_active_window_ = none ∧
      s1.trace = scenarioE.trace ++
        [Call.RemoveDispatcherForRootWindow, Call.SetWindowChangeObserver false] ∧
      (s1.trace.drop scenarioE.trace.length).count Call.RemoveDispatcherForRootWindow = 1 ∧
      (s1.trace.drop scenarioE.trace.length).count (Call.SetWindowChangeObserver false) = 1 :=
  ⟨rfl, closing_sole_window_tears_down demoEnv scenarioE 1 rfl⟩

/-- C11, counterexample: popup 104 holds capture and `SetCapture(104)` is called again;
the capture-released notification is issued on 104 although the new capture window is the
same one. -/
theorem SetCapture_same_window_notifies :
    c4State.current_capture_ = some 104 ∧
    (SetCapture c4State (some 104)).trace = c4State.trace ++ [Call.OnCaptureReleased 104] :=
  ⟨rfl, rfl⟩

/-- C11, amended: `SetCapture(w)` issues the capture-released notification on the window
that holds capture whenever there is one, whatever `w` is, also when `w` is that very
window, and issues nothing when there is none; afterwards the capture window is `w`. -/
theorem SetCapture_notifies_existing_capture (s : State) (w : Option HostPtr) :
    (SetCapture s w).trace =
      s.trace ++ (match s.current_capture_ with
                  | some c => [Call.OnCaptureReleased c]
                  | none => []) ∧
    (∀ c, Call.OnCaptureReleased c ∈ (SetCapture s w).trace.drop s.trace.length ↔
      s.current_capture_ = some c) ∧
    (SetCapture s w).current_capture_ = w := by
  obtain ⟨h1, _, _, _, _, _, _, _, h9⟩ := SetCapture_fields s w
  refine ⟨h9, ?_, h1⟩
  intro c
  rw [h9, drop_trace]
  cases s.current_capture_ with
  | none => simp
  | some d => simp [eq_comm]

/-- C12, the code at the failing input: windows 1 and 2 open, `GetAllOpenWindows()` builds
the cache, `SetActiveWindow(102)` reorders the list to `[2, 1]` and leaves the cache in
place, and `GetAllOpenWindows()` then returns the content objects in the old order, which
is not the list mapped through the content lookup. -/
theorem cached_windows_stale_after_reorder :
    GetAllOpenWindows demoEnv c12Opened = .ok (c12Cached, [1001, 1002]) ∧
    SetActiveWindow demoEnv c12Cached (some 102) = .ok c12Raised ∧
    open_windows c12Raised = [2, 1] ∧
    GetAllOpenWindows demoEnv c12Raised = .ok (c12Raised, [1001, 1002]) ∧
    (open_windows c12Raised).map demoEnv.GetContentWindowForAcceleratedWidget
      = [1002, 1001] :=
  ⟨rfl, rfl, rfl, rfl, rfl⟩

/-- C14, the code at the failing input: window 101 (handle 1) is active and the other open
handle, 9, is one the lookup does not resolve. `RemoveWindow(1)` looks up the new front 9,
gets nothing and calls through the null result; `OnWindowFocused(9)` in the same state
returns at its null check. -/
theorem RemoveWindow_dereferences_unresolved_front :
    run demoEnv RootWindowHostDelegateWayland c14Ops = .ok c14State ∧
    demoEnv.GetHostForAcceleratedWidget 9 = none ∧
    OnRootWindowClosed demoEnv c14State 1 = .error Fault.nullDereference ∧
    OnWindowFocused demoEnv c14State 9 = .ok (focusNoted demoEnv c14State 9) :=
  ⟨rfl, rfl, rfl, rfl⟩

/-- C19, the code at the failing input: one window open on a fresh coordinator, nothing
active, no capture, and the lookup resolves handle 1 to the parentless window 101;
`OnWindowFocused(1)` reads `window_` through the null active window. -/
theorem OnWindowFocused_without_active_window_faults :
    run demoEnv RootWindowHostDelegateWayland [Op.AddWindow 1] = .ok scenarioE ∧
    scenarioE.current_active_window_ = none ∧
    scenarioE.current_capture_ = none ∧
    1 ∈ open_windows scenarioE ∧
    demoEnv.GetHostForAcceleratedWidget 1 = some 101 ∧
    demoEnv.window_parent_ 101 = none ∧
    OnWindowFocused demoEnv scenarioE 1 = .error Fault.nullDereference :=
  ⟨rfl, rfl, rfl, by decide, rfl, rfl, rfl⟩

/-- C13, counterexample: in a debug build, after window 1, popup 4 and window 2 open, 101
is activated and window 1 closes, the list is the duplicate-free `[4, 2]`, its front is the
handle of the active window 104 and the next handle resolves to window 102; yet
`RemoveWindow(4)` does not return: the active window has a parent and the assertion of
`OnRootWindowClosed` on it fails. -/
theorem closing_active_popup_fails_assertion :
    run demoEnv RootWindowHostDelegateWayland c13Ops = .ok c13State ∧
    demoEnv.dcheck_is_on = true ∧
    c13State.open_windows_ = some [4, 2] ∧
    ([4, 2] : List AcceleratedWidget).Nodup ∧
    c13State.current_active_window_ = some 104 ∧
    demoEnv.window_ 104 = 4 ∧
    demoEnv.GetHostForAcceleratedWidget 2 = some 102 ∧
    demoEnv.window_ 102 = 2 ∧
    demoEnv.window_parent_ 104 = some 101 ∧
    OnRootWindowClosed demoEnv c13State 4 = .error Fault.dcheckFailed :=
  ⟨rfl, rfl, rfl, by decide, rfl, rfl, rfl, rfl, rfl, rfl⟩

/-- C13, amended: with a duplicate-free open-window list of at least two elements whose
front `h` is the handle of the active window `w`, the next element resolved by the lookup to
the window `w2` carrying that handle, and, in a build where `DCHECK` is fatal, `w` without a
parent, `RemoveWindow(h)` returns, leaves the list without `h` and otherwise in order, makes `w2`
active, and issues exactly: activation-changed(false) on `w`, `Activate` on `w2`,
activation-changed(true) on `w2`; no deregistration is among them. -/
theorem closing_active_window_promotes_new_front (env : Env) (s : State) (w w2 : HostPtr)
    (h front : AcceleratedWidget) (rest : List AcceleratedWidget)
    (hL : s.open_windows_ = some (h :: front :: rest)) (hnd : (h :: front :: rest).Nodup)
    (hact : s.current_active_window_ = some w) (hw : env.window_ w = h)
    (hres : env.GetHostForAcceleratedWidget front = some w2) (hw2 : env.window_ w2 = front)
    (htop : env.dcheck_is_on = true → env.window_parent_ w = none) :
    ∃ s1, OnRootWindowClosed env s h = .ok s1 ∧
      open_windows s1 = front :: rest ∧
      open_windows s1 = (h :: front :: rest).filter (fun x => x ≠ h) ∧
      s1.current_active_window_ = some w2 ∧
      s1.trace = s.trace ++
        [Call.HandleNativeWidgetActivationChanged w false,
         Call.Activate w2 (front :: rest),
         Call.HandleNativeWidgetActivationChanged w2 true] ∧
      registryCalls (s1.trace.drop s.trace.length) = [] := by
  have hop : open_windows s = h :: front :: rest := by simp [open_windows, hL]
  have hflt : (h :: front :: rest).filter (fun x => x ≠ h) = front :: rest := by
    have hnot : h ∉ front :: rest := (List.nodup_cons.mp hnd).1
    have hall : ∀ x ∈ front :: rest, ¬ x = h := fun x hx e => hnot (e ▸ hx)
    rw [List.filter_cons]
    simp only [ne_eq, not_true_eq_false, decide_False, Bool.false_eq_true, if_false]
    exact List.filter_eq_self.mpr (fun x hx => by simpa using hall x hx)
  have hrm : listRemove (open_windows s) h = front :: rest := by
    rw [hop]
    have e : (h :: front :: rest).filter (fun x => x != h)
        = (h :: front :: rest).filter (fun x => decide (x ≠ h)) := by
      congr 1
      funext x
      by_cases e : x = h <;> simp [e]
    exact e.trans hflt
  have hrun := OnRootWindowClosed_active env s h w front rest hrm hact hw
  have hd : (env.dcheck_is_on && (env.window_parent_ w).isSome) = false := by
    cases hdc : env.dcheck_is_on with
    | false => rfl
    | true => rw [htop hdc]; rfl
  rw [hd] at hrun
  simp only [Bool.false_eq_true, if_false, hres] at hrun
  have hne : open_windows (emit (closedKeep s h)
      (Call.HandleNativeWidgetActivationChanged w false)) ≠ [] := by
    have e : open_windows (emit (closedKeep s h)
        (Call.HandleNativeWidgetActivationChanged w false))
        = listRemove (open_windows s) h := rfl
    rw [e, hrm]
    simp
  rw [SetActiveWindow_some env _ w2 hne] at hrun
  have hraised : raised (listRemove (open_windows s) h) (env.window_ w2) = front :: rest := by
    rw [hrm, hw2]
    unfold raised
    simp
  have hlist : open_windows (emit (activated env (emit (closedKeep s h)
      (Call.HandleNativeWidgetActivationChanged w false)) w2)
      (Call.HandleNativeWidgetActivationChanged w2 true)) = front :: rest := hraised
  have htrace : (emit (activated env (emit (closedKeep s h)
      (Call.HandleNativeWidgetActivationChanged w false)) w2)
      (Call.HandleNativeWidgetActivationChanged w2 true)).trace = s.trace ++
        [Call.HandleNativeWidgetActivationChanged w false,
         Call.Activate w2 (front :: rest),
         Call.HandleNativeWidgetActivationChanged w2 true] := by
    show ((s.trace ++ [_]) ++ [Call.Activate w2
        (raised (listRemove (open_windows s) h) (env.window_ w2))]) ++ [_] = _
    rw [hraised]
    simp
  refine ⟨_, hrun, hlist, ?_, rfl, htrace, ?_⟩
  · rw [hlist, hflt]
  · rw [htrace, drop_trace]
    rfl

/-- C13, amended, twice: on Scenario B in a debug build, where closing the parentless
active window 1 promotes window 2; and at the state reached by `c13Ops` in a release build,
where closing the active popup 4 promotes window 2. -/
theorem closing_active_window_promotes_new_front_witness :
    (∃ s1, OnRootWindowClosed demoEnv scenarioB 1 = .ok s1 ∧
      open_windows s1 = [2] ∧
      open_windows s1 = [1, 2].filter (fun x => x ≠ 1) ∧
      s1.current_active_window_ = some 102 ∧
      s1.trace = scenarioB.trace ++
        [Call.HandleNativeWidgetActivationChanged 101 false,
         Call.Activate 102 [2],
         Call.HandleNativeWidgetActivationChanged 102 true] ∧
      registryCalls (s1.trace.drop scenarioB.trace.length) = []) ∧
    (∃ s1, OnRootWindowClosed releaseEnv c13State 4 = .ok s1 ∧
      open_windows s1 = [2] ∧
      open_windows s1 = [4, 2].filter (fun x => x ≠ 4) ∧
      s1.current_active_window_ = some 102 ∧
      s1.trace = c13State.trace ++
        [Call.HandleNativeWidgetActivationChanged 104 false,
         Call.Activate 102 [2],
         Call.HandleNativeWidgetActivationChanged 102 true] ∧
      registryCalls (s1.trace.drop c13State.trace.length) = []) :=
  ⟨closing_active_window_promotes_new_front demoEnv scenarioB 101 102 1 2 [] rfl (by decide)
      rfl rfl rfl rfl (fun _ => rfl),
   closing_active_window_promotes_new_front releaseEnv c13State 104 102 4 2 [] rfl
      (by decide) rfl rfl rfl rfl (fun h => absurd h (by decide))⟩

/-- Removing a value keeps a list duplicate-free. -/
theorem listRemove_nodup (l : List AcceleratedWidget) (h : AcceleratedWidget)
    (hnd : l.Nodup) : (listRemove l h).Nodup :=
  hnd.filter _

/-- Bringing a handle to the front keeps a list duplicate-free. -/
theorem raised_nodup (l : List AcceleratedWidget) (h : AcceleratedWidget)
    (hnd : l.Nodup) : (raised l h).Nodup := by
  unfold raised
  split
  · exact hnd
  · refine List.nodup_cons.mpr ⟨?_, listRemove_nodup l h hnd⟩
    intro hmem
    have := (List.mem_filter.mp hmem).2
    simp at this

/-- The open-window list after `SetCapture`. -/
theorem open_windows_SetCapture (s : State) (w : Option HostPtr) :
    open_windows (SetCapture s w) = open_windows s := by
  unfold open_windows
  rw [(SetCapture_fields s w).2.2.2.2.1]

/-- Every call keeps the open-window list duplicate-free, as long as `AddWindow` is given
a handle that is not in the list. -/
theorem Nodup_step (env : Env) (s : State) (op : Op) (s1 : State)
    (hnd : (open_windows s).Nodup)
    (hfresh : ∀ h, op = Op.AddWindow h → h ∉ open_windows s)
    (h : step env s op = .ok s1) : (open_windows s1).Nodup := by
  have focus : ∀ hd, OnWindowFocused env s hd = .ok s1 → (open_windows s1).Nodup := by
    intro hd h
    obtain ⟨a, _, hc⟩ := OnWindowFocused_cases env s s1 hd h
    rcases hc with rfl | ⟨w, s5, _, h5, rfl⟩
    · exact hnd
    · obtain ⟨_, rfl⟩ := SetActiveWindow_some_inv env _ s5 w h5
      show (raised (open_windows (SetCapture _ none)) (env.window_ w)).Nodup
      rw [open_windows_SetCapture]
      exact raised_nodup _ _ hnd
  cases op with
  | AddWindow hd =>
    simp only [step, Except.ok.injEq] at h
    subst h
    show (open_windows s ++ [hd]).Nodup
    have hf := hfresh hd rfl
    exact List.Nodup.append hnd (List.nodup_singleton hd) (by simpa using hf)
  | RemoveWindow hd =>
    simp only [step] at h
    rcases OnRootWindowClosed_cases env s s1 hd h with ⟨_, rfl⟩ | ⟨_, _, rfl⟩ |
      ⟨a, front, rest, r, _, _, _, _, rfl⟩
    · exact List.nodup_nil
    · exact listRemove_nodup _ _ hnd
    · exact raised_nodup _ _ (listRemove_nodup _ _ hnd)
  | SetActiveWindow w =>
    simp only [step] at h
    cases w with
    | none =>
      rw [SetActiveWindow_none] at h
      simp only [Except.ok.injEq] at h
      subst h
      exact hnd
    | some w =>
      obtain ⟨_, rfl⟩ := SetActiveWindow_some_inv env s s1 w h
      exact raised_nodup _ _ hnd
  | SetCapture w =>
    simp only [step, Except.ok.injEq] at h
    subst h
    rw [open_windows_SetCapture]
    exact hnd
  | OnWindowFocused hd => exact focus hd h
  | OnWindowEnter hd => exact focus hd h
  | Dispatch ne =>
    simp only [step] at h
    cases hd : Dispatch env s ne with
    | error f => rw [hd] at h; cases h
    | ok r =>
      obtain ⟨s2, b⟩ := r
      rw [hd] at h
      simp only [Except.ok.injEq] at h
      subst h
      rcases (Dispatch_cases env s s2 ne b hd).2 with ⟨t, rfl, _⟩ | ⟨rfl, _, _⟩
      · exact hnd
      · rw [open_windows_SetCapture]
        exact hnd

/-- Runs whose `AddWindow` calls are fresh keep the open-window list duplicate-free. -/
theorem Nodup_run (env : Env) :
    ∀ (ops : List Op) (s s1 : State), (open_windows s).Nodup →
      addsFresh env s ops = true → run env s ops = .ok s1 → (open_windows s1).Nodup := by
  intro ops
  induction ops with
  | nil =>
    intro s s1 hnd _ h
    simp only [run, Except.ok.injEq] at h
    exact h ▸ hnd
  | cons op ops ih =>
    intro s s1 hnd hf h
    simp only [run] at h
    simp only [addsFresh, Bool.and_eq_true] at hf
    cases hs : step env s op with
    | error f => rw [hs] at h; cases h
    | ok s2 =>
      rw [hs] at h hf
      refine ih s2 s1 (Nodup_step env s op s2 hnd ?_ hs) hf.2 h
      intro hd hop
      subst hop
      simpa using hf.1

/-- C15: in every state reached from a freshly constructed coordinator by any sequence
of calls in which each `AddWindow` is given a handle that is not in the open-window list at
that moment, the open-window list has no duplicates. -/
theorem open_windows_never_duplicates (env : Env) (ops : List Op) (s : State)
    (hfresh : addsFresh env RootWindowHostDelegateWayland ops = true)
    (h : run env RootWindowHostDelegateWayland ops = .ok s) :
    (open_windows s).Nodup :=
  Nodup_run env ops RootWindowHostDelegateWayland s List.nodup_nil hfresh h

/-- C15 on the run `c4Ops`. -/
theorem open_windows_never_duplicates_witness :
    addsFresh demoEnv RootWindowHostDelegateWayland c4Ops = true ∧
    run demoEnv RootWindowHostDelegateWayland c4Ops = .ok c4State ∧
    (open_windows c4State).Nodup :=
  ⟨rfl, rfl, open_windows_never_duplicates demoEnv c4Ops c4State rfl rfl⟩

/-- C16: when the open-window list contains the handle of `w`, two calls of
`SetActiveWindow(w)` in a row both return; the second leaves the list, the active window
and the dispatch target as the first left them, and the two calls issue `Activate` on `w`
exactly twice and nothing else. -/
theorem SetActiveWindow_twice (env : Env) (s : State) (w : HostPtr)
    (hmem : env.window_ w ∈ open_windows s) :
    ∃ s1 s2, SetActiveWindow env s (some w) = .ok s1 ∧
      SetActiveWindow env s1 (some w) = .ok s2 ∧
      open_windows s2 = open_windows s1 ∧
      s2.current_active_window_ = s1.current_active_window_ ∧
      s2.current_dispatcher_ = s1.current_dispatcher_ ∧
      s2.trace = s.trace ++
        [Call.Activate w (open_windows s1), Call.Activate w (open_windows s1)] ∧
      (s2.trace.drop s.trace.length).length = 2 := by
  have hne : open_windows s ≠ [] := by
    intro hnil
    rw [hnil] at hmem
    cases hmem
  have hhead : (open_windows (activated env s w)).head? = some (env.window_ w) :=
    raised_head _ _
  have hne1 : open_windows (activated env s w) ≠ [] := by
    intro hnil
    rw [hnil] at hhead
    cases hhead
  have hsame : open_windows (activated env (activated env s w) w)
      = open_windows (activated env s w) := by
    show raised (open_windows (activated env s w)) (env.window_ w) = _
    unfold raised
    rw [if_pos hhead]
  have htrace : (activated env (activated env s w) w).trace = s.trace ++
      [Call.Activate w (open_windows (activated env s w)),
       Call.Activate w (open_windows (activated env s w))] := by
    show (s.trace ++ [Call.Activate w (raised (open_windows s) (env.window_ w))]) ++
      [Call.Activate w (raised (open_windows (activated env s w)) (env.window_ w))] = _
    have e : raised (open_windows (activated env s w)) (env.window_ w)
        = open_windows (activated env s w) := hsame
    rw [e]
    simp
    rfl
  refine ⟨activated env s w, activated env (activated env s w) w,
    SetActiveWindow_some env s w hne, SetActiveWindow_some env _ w hne1, hsame, rfl, rfl,
    htrace, ?_⟩
  rw [htrace, drop_trace]
  rfl

/-- C16 on Scenario A, for window 103. -/
theorem SetActiveWindow_twice_witness :
    ∃ s1 s2, SetActiveWindow demoEnv scenarioA (some 103) = .ok s1 ∧
      SetActiveWindow demoEnv s1 (some 103) = .ok s2 ∧
      open_windows s2 = open_windows s1 ∧
      s2.current_active_window_ = s1.current_active_window_ ∧
      s2.current_dispatcher_ = s1.current_dispatcher_ ∧
      s2.trace = scenarioA.trace ++
        [Call.Activate 103 (open_windows s1), Call.Activate 103 (open_windows s1)] ∧
      (s2.trace.drop scenarioA.trace.length).length = 2 :=
  SetActiveWindow_twice demoEnv scenarioA 103 (by decide)

/-- C17: with an active window, whenever `OnWindowFocused(h)` returns, on whichever exit
path, the focused handle is `h` and `handle_event_` is true exactly when the capture
window held at the call was none or had accelerated widget `h`; and the call does return
when the open-window list is non-empty. -/
theorem OnWindowFocused_records_focus_and_gate (env : Env) (s : State) (a : HostPtr)
    (h : AcceleratedWidget) (hact : s.current_active_window_ = some a) :
    (∀ s1, OnWindowFocused env s h = .ok s1 →
      s1.current_focus_window_ = h ∧
      (s1.handle_event_ = true ↔
        (s.current_capture_ = none ∨
          ∃ c, s.current_capture_ = some c ∧ env.GetAcceleratedWidget c = h))) ∧
    (open_windows s ≠ [] → ∃ s1, OnWindowFocused env s h = .ok s1) := by
  have gate : ((focusNoted env s h).handle_event_ = true ↔
      (s.current_capture_ = none ∨
        ∃ c, s.current_capture_ = some c ∧ env.GetAcceleratedWidget c = h)) := by
    unfold focusNoted
    cases hc : s.current_capture_ with
    | none => simp
    | some c =>
      simp only [beq_iff_eq]
      constructor
      · intro hb
        exact Or.inr ⟨c, rfl, hb.symm⟩
      · intro hr
        rcases hr with hr | ⟨c1, hc1, he⟩
        · cases hr
        · cases hc1
          exact he.symm
  constructor
  · intro s1 hrun
    obtain ⟨a1, _, hc⟩ := OnWindowFocused_cases env s s1 h hrun
    rcases hc with rfl | ⟨w, s5, _, h5, rfl⟩
    · exact ⟨rfl, gate⟩
    · obtain ⟨_, rfl⟩ := SetActiveWindow_some_inv env _ s5 w h5
      obtain ⟨_, _, _, _, _, f6, f7, _, _⟩ := SetCapture_fields (emit (focusNoted env s h)
        (Call.HandleNativeWidgetActivationChanged a1 false)) none
      refine ⟨f7, ?_⟩
      have e : (emit (activated env (SetCapture (emit (focusNoted env s h)
          (Call.HandleNativeWidgetActivationChanged a1 false)) none) w)
          (Call.HandleNativeWidgetActivationChanged w true)).handle_event_
          = (focusNoted env s h).handle_event_ := f6
      rw [e]
      exact gate
  · intro hne
    by_cases hsw : ∃ w, focusSwitches env s a h w
    · obtain ⟨w, hw⟩ := hsw
      have hne2 : open_windows (SetCapture (emit (focusNoted env s h)
          (Call.HandleNativeWidgetActivationChanged a false)) none) ≠ [] := by
        rw [open_windows_SetCapture]
        exact hne
      have hrun := OnWindowFocused_switch env s h a w hact hw
      rw [SetActiveWindow_some env _ w hne2] at hrun
      exact ⟨_, hrun⟩
    · exact ⟨_, OnWindowFocused_stay env s h a hact (fun w hw => hsw ⟨w, hw⟩)⟩

/-- C17 at the state reached by `c4Ops`, focusing the popup that holds capture. -/
theorem OnWindowFocused_records_focus_and_gate_witness :
    (∀ s1, OnWindowFocused demoEnv c4State 4 = .ok s1 →
      s1.current_focus_window_ = 4 ∧
      (s1.handle_event_ = true ↔
        (c4State.current_capture_ = none ∨
          ∃ c, c4State.current_capture_ = some c ∧ demoEnv.GetAcceleratedWidget c = 4))) ∧
    (open_windows c4State ≠ [] → ∃ s1, OnWindowFocused demoEnv c4State 4 = .ok s1) :=
  OnWindowFocused_records_focus_and_gate demoEnv c4State 101 4 rfl

/-- C18: with a dispatch target `t`, `Dispatch` returns true for every event. Unless the
event is a pointer event met while `handle_event_` is false, the state afterwards is the
state before with the calls of `dispatchTable` appended to the trace, so list, active
window, capture window and flags are unchanged; those calls hand the event to `t` exactly
once for touch, key, scroll and pointer events and to no window for telemetry, unknown and
other kinds. -/
theorem Dispatch_follows_table (env : Env) (s : State) (t : HostPtr) (ne : NativeEvent)
    (hT : s.current_dispatcher_ = some t) :
    (∃ s1, Dispatch env s ne = .ok (s1, true)) ∧
    ((isPointerEvent ne.type = true → s.handle_event_ = true) →
      Dispatch env s ne = .ok ({ s with trace := s.trace ++ dispatchTable s t ne }, true)) ∧
    deliveries (dispatchTable s t ne) =
      (match ne.type with
        | .ET_UMA_DATA | .ET_UNKNOWN | .ET_OTHER _ => []
        | _ => [(t, ne)]) := by
  obtain ⟨fw, he, sp, cd, cc, ca, ow, aw, tr⟩ := s
  simp only at hT
  subst hT
  obtain ⟨ty, serial⟩ := ne
  refine ⟨?_, ?_, ?_⟩
  · cases ty <;> cases he <;> cases sp <;> cases cc <;>
      simp [Dispatch, toDispatcher, DispatchMouseEvent, emit, SetCapture]
  rotate_left
  · cases ty <;> cases sp <;> simp [dispatchTable, deliveries]
  · intro hgate
    cases ty <;> cases sp <;>
      first
        | (simp [Dispatch, dispatchTable, toDispatcher, emit]; done)
        | (have hev : he = true := hgate rfl
           subst hev
           simp [Dispatch, dispatchTable, DispatchMouseEvent, emit])

/-- C18 at the state reached by `c1Ops`, for a mouse press with the stop flag set. -/
theorem Dispatch_follows_table_witness :
    Dispatch demoEnv c1State pressEvent
      = .ok ({ c1State with
               trace := c1State.trace ++
                 [Call.OnHostMouseEvent 101 pressEvent, Call.StopPropagation pressEvent] },
             true) :=
  (Dispatch_follows_table demoEnv c1State 101 pressEvent rfl).2.1 (fun _ => rfl)

/-- Every call keeps the propagation-stop flag equal to whether a capture window is set. -/
theorem StopFlag_step (env : Env) (s : State) (op : Op) (s1 : State)
    (hinv : s.stop_propogation_ = s.current_capture_.isSome)
    (h : step env s op = .ok s1) :
    s1.stop_propogation_ = s1.current_capture_.isSome := by
  have cleared : ∀ x : State, (SetCapture x none).stop_propogation_
      = (SetCapture x none).current_capture_.isSome := by
    intro x
    obtain ⟨h1, h2, _⟩ := SetCapture_fields x none
    rw [h1, h2]
  have focus : ∀ hd, OnWindowFocused env s hd = .ok s1 →
      s1.stop_propogation_ = s1.current_capture_.isSome := by
    intro hd h
    obtain ⟨a, _, hc⟩ := OnWindowFocused_cases env s s1 hd h
    rcases hc with rfl | ⟨w, s5, _, h5, rfl⟩
    · exact hinv
    · obtain ⟨_, rfl⟩ := SetActiveWindow_some_inv env _ s5 w h5
      exact cleared (emit (focusNoted env s hd)
        (Call.HandleNativeWidgetActivationChanged a false))
  cases op with
  | AddWindow hd =>
    simp only [step, Except.ok.injEq] at h
    subst h
    exact hinv
  | RemoveWindow hd =>
    simp only [step] at h
    rcases OnRootWindowClosed_cases env s s1 hd h with ⟨_, rfl⟩ | ⟨_, _, rfl⟩ |
      ⟨a, front, rest, r, _, _, _, _, rfl⟩
    · exact hinv
    · exact hinv
    · exact hinv
  | SetActiveWindow w =>
    simp only [step] at h
    cases w with
    | none =>
      rw [SetActiveWindow_none] at h
      simp only [Except.ok.injEq] at h
      subst h
      exact hinv
    | some w =>
      obtain ⟨_, rfl⟩ := SetActiveWindow_some_inv env s s1 w h
      exact hinv
  | SetCapture w =>
    simp only [step, Except.ok.injEq] at h
    subst h
    obtain ⟨h1, h2, _⟩ := SetCapture_fields s w
    rw [h1, h2]
  | OnWindowFocused hd => exact focus hd h
  | OnWindowEnter hd => exact focus hd h
  | Dispatch ne =>
    simp only [step] at h
    cases hd : Dispatch env s ne with
    | error f => rw [hd] at h; cases h
    | ok r =>
      obtain ⟨s2, b⟩ := r
      rw [hd] at h
      simp only [Except.ok.injEq] at h
      subst h
      rcases (Dispatch_cases env s s2 ne b hd).2 with ⟨t, rfl, _⟩ | ⟨rfl, _, _⟩
      · exact hinv
      · exact cleared s

/-- C20: in every state reached from a freshly constructed coordinator by any sequence
of calls, the propagation-stop flag is true if and only if a capture window is set. -/
theorem stop_flag_iff_capture (env : Env) (ops : List Op) (s : State)
    (h : run env RootWindowHostDelegateWayland ops = .ok s) :
    s.stop_propogation_ = true ↔ s.current_capture_ ≠ none := by
  have hinv := run_preserves env
    (fun x => x.stop_propogation_ = x.current_capture_.isSome)
    (StopFlag_step env) ops RootWindowHostDelegateWayland s rfl h
  simp only at hinv
  rw [hinv]
  cases s.current_capture_ <;> simp

/-- C20 at the states reached by `c4Ops` (capture held) and `c3Ops` (no capture). -/
theorem stop_flag_iff_capture_witness :
    (c4State.stop_propogation_ = true ↔ c4State.current_capture_ ≠ none) ∧
    (c3State.stop_propogation_ = true ↔ c3State.current_capture_ ≠ none) :=
  ⟨stop_flag_iff_capture demoEnv c4Ops c4State rfl,
   stop_flag_iff_capture demoEnv c3Ops c3State rfl⟩

end ozonewayland
